import Mathlib

/-!
Verification development for the baileys-connect-dashboard session
lifecycle subsystem.

Server side (namespace Srv): a shallow embedding of
docs/baileys-server/src/instanceManager.js.  The InstanceManager state
(instances Map, reconnecting Set, session files on disk, websocket
subscriber sets, the persisted registry file, and the stream of emitted
websocket notifications) is modelled as an explicit state record, and
each method of the class becomes a pure state transformer.  The Baileys
protocol engine is external: its connection updates arrive as values of
ConnUpdate fed to the registered handler.

Client side (namespace Cli): a shallow embedding of the per-card state
synchronizer in src/components/InstanceCard.tsx together with the mirror
update logic of src/contexts/InstanceContext.tsx.
-/

namespace Srv

/-- Association-list lookup, mirroring Map.get (first matching key). -/
def lookupA {α : Type} : List (String × α) → String → Option α
  | [], _ => none
  | (k, v) :: rest, key => if k = key then some v else lookupA rest key

/-- Association-list insert-or-replace, mirroring Map.set. -/
def setA {α : Type} : List (String × α) → String → α → List (String × α)
  | [], key, v => [(key, v)]
  | (k, v') :: rest, key, v =>
    if k = key then (key, v) :: rest else (k, v') :: setA rest key v

/-- Association-list removal, mirroring Map.delete. -/
def delA {α : Type} : List (String × α) → String → List (String × α)
  | [], _ => []
  | (k, v) :: rest, key => if k = key then delA rest key else (k, v) :: delA rest key

@[simp]
theorem lookupA_nil {α : Type} (key : String) : lookupA ([] : List (String × α)) key = none := rfl

@[simp]
theorem lookupA_cons {α : Type} (k key : String) (v : α) (rest : List (String × α)) :
    lookupA ((k, v) :: rest) key = if k = key then some v else lookupA rest key := rfl

theorem lookupA_setA_self {α : Type} (xs : List (String × α)) (k : String) (v : α) :
    lookupA (setA xs k v) k = some v := by
  induction xs with
  | nil => rw [setA, lookupA_cons, if_pos rfl]
  | cons e rest ih =>
    obtain ⟨k', v'⟩ := e
    by_cases h : k' = k
    · rw [setA, if_pos h, lookupA_cons, if_pos rfl]
    · rw [setA, if_neg h, lookupA_cons, if_neg h, ih]

theorem lookupA_setA_ne {α : Type} (xs : List (String × α)) (k k' : String) (v : α)
    (h : k' ≠ k) : lookupA (setA xs k v) k' = lookupA xs k' := by
  induction xs with
  | nil => rw [setA, lookupA_cons, if_neg (Ne.symm h), lookupA_nil]
  | cons e rest ih =>
    obtain ⟨k0, v0⟩ := e
    by_cases h0 : k0 = k
    · subst h0
      rw [setA, if_pos rfl, lookupA_cons, lookupA_cons, if_neg (Ne.symm h), if_neg (Ne.symm h)]
    · rw [setA, if_neg h0, lookupA_cons, lookupA_cons, ih]

theorem lookupA_delA_self {α : Type} (xs : List (String × α)) (k : String) :
    lookupA (delA xs k) k = none := by
  induction xs with
  | nil => rw [delA, lookupA_nil]
  | cons e rest ih =>
    obtain ⟨k0, v0⟩ := e
    by_cases h0 : k0 = k
    · rw [delA, if_pos h0, ih]
    · rw [delA, if_neg h0, lookupA_cons, if_neg h0, ih]

theorem lookupA_delA_ne {α : Type} (xs : List (String × α)) (k k' : String)
    (h : k' ≠ k) : lookupA (delA xs k) k' = lookupA xs k' := by
  induction xs with
  | nil => rw [delA]
  | cons e rest ih =>
    obtain ⟨k0, v0⟩ := e
    by_cases h0 : k0 = k
    · subst h0
      rw [delA, if_pos rfl, lookupA_cons, if_neg (fun hh => h hh.symm), ih]
    · rw [delA, if_neg h0, lookupA_cons, lookupA_cons, ih]

theorem mem_setA {α : Type} (xs : List (String × α)) (k : String) (v : α)
    (e : String × α) (he : e ∈ setA xs k v) : e ∈ xs ∨ e = (k, v) := by
  induction xs with
  | nil =>
    rw [setA] at he
    right
    simpa using he
  | cons e0 rest ih =>
    obtain ⟨k0, v0⟩ := e0
    by_cases h0 : k0 = k
    · rw [setA, if_pos h0] at he
      rcases List.mem_cons.mp he with h | h
      · right; exact h
      · left; exact List.mem_cons_of_mem _ h
    · rw [setA, if_neg h0] at he
      rcases List.mem_cons.mp he with h | h
      · left; exact h ▸ List.mem_cons_self _ _
      · rcases ih h with h' | h'
        · left; exact List.mem_cons_of_mem _ h'
        · right; exact h'

theorem mem_delA {α : Type} (xs : List (String × α)) (k : String)
    (e : String × α) (he : e ∈ delA xs k) : e ∈ xs := by
  induction xs with
  | nil => simp [delA] at he
  | cons e0 rest ih =>
    obtain ⟨k0, v0⟩ := e0
    by_cases h0 : k0 = k
    · rw [delA, if_pos h0] at he
      exact List.mem_cons_of_mem _ (ih he)
    · rw [delA, if_neg h0] at he
      rcases List.mem_cons.mp he with h | h
      · exact h ▸ List.mem_cons_self _ _
      · exact List.mem_cons_of_mem _ (ih h)

theorem lookupA_mem {α : Type} (xs : List (String × α)) (k : String) (v : α)
    (h : lookupA xs k = some v) : (k, v) ∈ xs := by
  induction xs with
  | nil => simp [lookupA] at h
  | cons e rest ih =>
    obtain ⟨k0, v0⟩ := e
    by_cases h0 : k0 = k
    · subst h0
      rw [lookupA_cons, if_pos rfl] at h
      injection h with h
      subst h
      exact List.mem_cons_self _ _
    · rw [lookupA_cons, if_neg h0] at h
      exact List.mem_cons_of_mem _ (ih h)

/-- Keys of an association list are distinct (a Map never has duplicates). -/
def NodupKeys {α : Type} (xs : List (String × α)) : Prop :=
  xs.Pairwise (fun a b => a.1 ≠ b.1)

theorem nodupKeys_setA {α : Type} (xs : List (String × α)) (k : String) (v : α)
    (h : NodupKeys xs) : NodupKeys (setA xs k v) := by
  induction xs with
  | nil => simp [NodupKeys, setA]
  | cons e rest ih =>
    obtain ⟨k0, v0⟩ := e
    rw [NodupKeys, List.pairwise_cons] at h
    obtain ⟨hhead, htail⟩ := h
    by_cases h0 : k0 = k
    · subst h0
      rw [NodupKeys, setA, if_pos rfl, List.pairwise_cons]
      exact ⟨hhead, htail⟩
    · rw [NodupKeys, setA, if_neg h0, List.pairwise_cons]
      refine ⟨?_, ih htail⟩
      intro e' he'
      rcases mem_setA rest k v e' he' with h' | h'
      · exact hhead e' h'
      · subst h'; exact h0

theorem nodupKeys_delA {α : Type} (xs : List (String × α)) (k : String)
    (h : NodupKeys xs) : NodupKeys (delA xs k) := by
  induction xs with
  | nil => simpa [delA] using h
  | cons e rest ih =>
    obtain ⟨k0, v0⟩ := e
    rw [NodupKeys, List.pairwise_cons] at h
    obtain ⟨hhead, htail⟩ := h
    by_cases h0 : k0 = k
    · rw [delA, if_pos h0]
      exact ih htail
    · rw [delA, if_neg h0]
      rw [NodupKeys, List.pairwise_cons]
      exact ⟨fun e' he' => hhead e' (mem_delA rest k e' he'), ih htail⟩

theorem nodupKeys_map {α β : Type} (xs : List (String × α)) (f : String × α → String × β)
    (hf : ∀ e, (f e).1 = e.1) (h : NodupKeys xs) : NodupKeys (xs.map f) := by
  rw [NodupKeys, List.pairwise_map]
  exact h.imp (fun hne => by simpa [hf] using hne)

theorem lookupA_map {α β : Type} (xs : List (String × α)) (f : String × α → String × β)
    (hf : ∀ e, (f e).1 = e.1) (k : String) :
    lookupA (xs.map f) k = (lookupA xs k).map (fun v => (f (k, v)).2) := by
  induction xs with
  | nil => simp [lookupA]
  | cons e rest ih =>
    obtain ⟨k0, v0⟩ := e
    have h1 : (f (k0, v0)).1 = k0 := hf _
    rcases hfe : f (k0, v0) with ⟨fk, fv⟩
    rw [hfe] at h1
    subst h1
    by_cases h0 : fk = k
    · subst h0
      rw [List.map_cons, hfe, lookupA_cons, if_pos rfl, lookupA_cons, if_pos rfl]
      simp [hfe]
    · rw [List.map_cons, hfe, lookupA_cons, if_neg h0, lookupA_cons, if_neg h0, ih]

/-- Instance connection status, as the string statuses used by the server. -/
inductive Status
  | connecting
  | qr_pending
  | connected
  | disconnected
  | error
deriving DecidableEq, Repr

/-- Which connection.update handler is attached to the live socket:
the one registered by createInstance or the one registered by
reconnectWithoutDeletingSession. -/
inductive HandlerKind
  | created
  | reconnect
deriving DecidableEq, Repr

/-- Structural content of a persisted creds.json, exactly the fields the
515 branch inspects: file size, me.id, noiseKey, signedIdentityKey,
registrationId. -/
structure CredInfo where
  size : Nat
  meId : Bool
  noiseKey : Bool
  signedIdentityKey : Bool
  registrationId : Bool
deriving DecidableEq, Repr

/-- Strict validation for existing sessions (instanceManager.js lines 303-307). -/
def credsValidCheck (c : CredInfo) : Bool :=
  decide (c.size > 2000) && c.meId && c.noiseKey && c.signedIdentityKey && c.registrationId

/-- In-memory instance record kept in the instances Map.  The socket field
records whether a live socket exists and which handler it carries; the
opaque Baileys handle itself is external. -/
structure Instance where
  name : String
  webhookUrl : Option String
  status : Status
  qrCode : Option String
  phone : Option String
  hadNewLogin : Bool
  socket : Option HandlerKind
  createdAt : Nat
deriving DecidableEq, Repr

/-- Payload of a websocket notification sent by notifyWebSocket. -/
inductive EventPayload
  | qrEv (qrCode : String)
  | statusEv (st : Status) (phone : Option String) (reason : Option String)
  | messageEv
deriving DecidableEq, Repr

/-- One emitted websocket notification. -/
structure WsEvent where
  instanceId : String
  payload : EventPayload
deriving DecidableEq, Repr

/-- One line of the persisted instances.json registry. -/
structure RegistryEntry where
  id : String
  name : String
  webhookUrl : Option String
  createdAt : Nat
deriving DecidableEq, Repr

/-- Whole InstanceManager state: the instances Map, the reconnecting Set,
the per-instance session files on disk (represented by their creds.json
content), the registry file, the websocket subscriber sets, and the log
of emitted notifications. -/
structure MState where
  instances : List (String × Instance)
  reconnecting : List String
  creds : List (String × CredInfo)
  registryFile : List RegistryEntry
  wsConnections : List (String × List Nat)
  events : List WsEvent
deriving DecidableEq, Repr

def initState : MState :=
  { instances := [], reconnecting := [], creds := [], registryFile := [],
    wsConnections := [], events := [] }

/-- notifyWebSocket: append the notification to the emitted-event log
(delivery to each open subscriber is best effort and does not change
manager state). -/
def notifyWebSocket (id : String) (p : EventPayload) (s : MState) : MState :=
  { s with events := s.events ++ [⟨id, p⟩] }

/-- saveInstancesToFile: persist id, name, webhookUrl, createdAt of every
instance to instances.json. -/
def saveInstancesToFile (s : MState) : MState :=
  { s with registryFile :=
      s.instances.map (fun e => ⟨e.1, e.2.name, e.2.webhookUrl, e.2.createdAt⟩) }

/-- QRCode.toDataURL: renders the raw QR payload to a data URL.  Always a
non-empty string. -/
def toDataURL (q : String) : String := "data:image/png;base64," ++ q

/-- Resolution of the connected phone: socket.user?.id?.split(the colon)[0]
with an empty result collapsed to null by the JS or-expression.  The
first split segment is the characters before the first colon. -/
def resolvePhone (userId : Option String) : Option String :=
  match userId with
  | none => none
  | some s =>
    let p := String.mk (s.toList.takeWhile (fun c => c ≠ ':'))
    if p = "" then none else some p

/-- The connection.update payload delivered by the protocol engine. -/
inductive ConnState
  | connClose (statusCode : Option Nat) (deviceRemoved : Bool)
  | connOpen (userId : Option String)
deriving DecidableEq, Repr

structure ConnUpdate where
  isNewLogin : Bool
  qr : Option String
  connection : Option ConnState
deriving DecidableEq, Repr

/-- Baileys DisconnectReason.loggedOut. -/
def DisconnectReason.loggedOut : Nat := 401

/-- Match condition of the loop in disconnectOtherInstancesWithPhone:
a different instance currently connected with the same phone. -/
def discMatch (phone currentId : String) (e : String × Instance) : Bool :=
  e.1 != currentId && e.2.phone == some phone && e.2.status == Status.connected

/-- Mutation applied to a matching instance: forced to disconnected, its
phone and qrCode cleared, its socket closed. -/
def discClear (i : Instance) : Instance :=
  { i with status := .disconnected, phone := none, qrCode := none, socket := none }

/-- disconnectOtherInstancesWithPhone: every other connected instance with
the same phone is forced to disconnected (phone and qrCode cleared,
socket closed), its session files are deleted, and a disconnected status
notification is emitted for it. -/
def disconnectOtherInstancesWithPhone (phone currentId : String) (s : MState) : MState :=
  { s with
    instances := s.instances.map
      (fun e => if discMatch phone currentId e then (e.1, discClear e.2) else e),
    creds := s.instances.foldl
      (fun c e => if discMatch phone currentId e then delA c e.1 else c) s.creds,
    events := s.events ++ (s.instances.filter (discMatch phone currentId)).map
      (fun e => ⟨e.1, EventPayload.statusEv .disconnected none none⟩) }

/-- createInstance: closes and discards any existing instance for the id,
registers a fresh record with status connecting, persists the registry,
then creates the socket and attaches the created-handler.  The catch
branch (makeWASocket failing, status error) concerns an external failure
and is not modelled. -/
def createInstance (now : Nat) (instanceId name : String) (webhookUrl : Option String)
    (s : MState) : MState :=
  let s1 : MState := { s with instances := delA s.instances instanceId }
  let inst : Instance :=
    { name := name, webhookUrl := webhookUrl, status := .connecting, qrCode := none,
      phone := none, hadNewLogin := false, socket := none, createdAt := now }
  let s2 : MState := { s1 with instances := setA s1.instances instanceId inst }
  let s3 := saveInstancesToFile s2
  { s3 with instances := setA s3.instances instanceId { inst with socket := some .created } }

/-- reconnectWithoutDeletingSession: guarded by the reconnecting set;
keeps the instance and its credentials, sets status connecting, clears
the qrCode (the phone is left untouched), closes the old socket and
opens a new one carrying the reconnect-handler. -/
def reconnectWithoutDeletingSession (instanceId : String) (s : MState) : MState :=
  if s.reconnecting.contains instanceId then s
  else
    match lookupA s.instances instanceId with
    | none => s
    | some inst =>
      let inst' : Instance := { inst with
        status := .connecting, qrCode := none, socket := some .reconnect }
      { s with reconnecting := s.reconnecting ++ [instanceId],
               instances := setA s.instances instanceId inst' }

/-- The open branch shared by both connection.update handlers (the
created-handler additionally clears hadNewLogin). -/
def openUpdate (instanceId : String) (phoneR : Option String) (clearNewLogin : Bool)
    (inst : Instance) (s : MState) : MState :=
  let s1 := match phoneR with
    | some p => disconnectOtherInstancesWithPhone p instanceId s
    | none => s
  let inst' : Instance :=
    { inst with
      status := .connected, qrCode := none, phone := phoneR,
      hadNewLogin := if clearNewLogin then false else inst.hadNewLogin }
  let s2 : MState :=
    { s1 with instances := setA s1.instances instanceId inst',
              reconnecting := s1.reconnecting.filter (fun x => x != instanceId) }
  notifyWebSocket instanceId (.statusEv .connected phoneR none) s2

/-- The close branch of the handler registered by createInstance
(instanceManager.js lines 204-384). -/
def createdClose (now : Nat) (instanceId : String) (code : Option Nat) (devRemoved : Bool)
    (inst : Instance) (s : MState) : MState :=
  if code = some 401 ∨ devRemoved then
    let inst' : Instance := { inst with
      status := .disconnected, qrCode := none, phone := none, hadNewLogin := false }
    let s1 : MState :=
      { s with instances := setA s.instances instanceId inst',
               reconnecting := s.reconnecting.filter (fun x => x != instanceId) }
    let s2 := notifyWebSocket instanceId
      (.statusEv .disconnected none (some "device_removed")) s1
    { s2 with creds := delA s2.creds instanceId }
  else if code = some 515 then
    if inst.hadNewLogin then
      let s1 : MState := { s with creds := delA s.creds instanceId }
      let inst' : Instance := { inst with
        hadNewLogin := false, qrCode := none, phone := none, status := .qr_pending }
      let s2 : MState := { s1 with instances := setA s1.instances instanceId inst' }
      let s3 := notifyWebSocket instanceId (.statusEv .qr_pending none none) s2
      createInstance now instanceId inst.name inst.webhookUrl s3
    else
      let credsOk : Bool := match lookupA s.creds instanceId with
        | some c => credsValidCheck c
        | none => false
      if credsOk then
        reconnectWithoutDeletingSession instanceId s
      else
        let s1 : MState := { s with creds := delA s.creds instanceId }
        let inst' : Instance := { inst with
          status := .qr_pending, qrCode := none, phone := none }
        let s2 : MState := { s1 with instances := setA s1.instances instanceId inst' }
        let s3 := notifyWebSocket instanceId (.statusEv .qr_pending none none) s2
        createInstance now instanceId inst.name inst.webhookUrl s3
  else if code = some 428 then
    reconnectWithoutDeletingSession instanceId s
  else if code = some DisconnectReason.loggedOut then
    let inst' : Instance := { inst with
      status := .disconnected, qrCode := none, phone := none, hadNewLogin := false }
    let s1 : MState := { s with
      instances := setA s.instances instanceId inst',
      creds := delA s.creds instanceId }
    notifyWebSocket instanceId (.statusEv .disconnected none none) s1
  else
    s

/-- The connection.update handler registered by createInstance. -/
def handleCreatedUpdate (now : Nat) (instanceId : String) (u : ConnUpdate)
    (inst0 : Instance) (s : MState) : MState :=
  let inst1 := if u.isNewLogin then { inst0 with hadNewLogin := true } else inst0
  let s1 : MState :=
    if u.isNewLogin then { s with instances := setA s.instances instanceId inst1 } else s
  let qrStep : MState × Instance :=
    match u.qr with
    | some q =>
      let i : Instance := { inst1 with status := .qr_pending, qrCode := some (toDataURL q) }
      (notifyWebSocket instanceId (.qrEv (toDataURL q))
        { s1 with instances := setA s1.instances instanceId i }, i)
    | none => (s1, inst1)
  match u.connection with
  | some (.connClose code devRemoved) =>
    createdClose now instanceId code devRemoved qrStep.2 qrStep.1
  | some (.connOpen userId) =>
    openUpdate instanceId (resolvePhone userId) true qrStep.2 qrStep.1
  | none => qrStep.1

/-- The connection.update handler registered by
reconnectWithoutDeletingSession (it does not read isNewLogin). -/
def handleReconnectUpdate (instanceId : String) (u : ConnUpdate)
    (inst0 : Instance) (s : MState) : MState :=
  let qrStep : MState × Instance :=
    match u.qr with
    | some q =>
      let i : Instance := { inst0 with status := .qr_pending, qrCode := some (toDataURL q) }
      (notifyWebSocket instanceId (.qrEv (toDataURL q))
        { s with instances := setA s.instances instanceId i }, i)
    | none => (s, inst0)
  match u.connection with
  | some (.connClose code devRemoved) =>
    if code = some 401 ∨ devRemoved then
      let inst' : Instance := { qrStep.2 with
        status := .disconnected, qrCode := none, phone := none, hadNewLogin := false }
      let s2 : MState :=
        { qrStep.1 with instances := setA qrStep.1.instances instanceId inst',
                        reconnecting := qrStep.1.reconnecting.filter (fun x => x != instanceId) }
      let s3 := notifyWebSocket instanceId
        (.statusEv .disconnected none (some "device_removed")) s2
      { s3 with creds := delA s3.creds instanceId }
    else if code = some DisconnectReason.loggedOut then
      let inst' : Instance := { qrStep.2 with status := .disconnected, phone := none }
      let s2 : MState :=
        { qrStep.1 with instances := setA qrStep.1.instances instanceId inst',
                        reconnecting := qrStep.1.reconnecting.filter (fun x => x != instanceId) }
      notifyWebSocket instanceId (.statusEv .disconnected none none) s2
    else qrStep.1
  | some (.connOpen userId) =>
    openUpdate instanceId (resolvePhone userId) false qrStep.2 qrStep.1
  | none => qrStep.1

/-- Dispatch of a connection.update to the handler attached to the
instance's current socket; with no live instance or socket there is no
listener and the update is dropped. -/
def handleUpdate (now : Nat) (instanceId : String) (u : ConnUpdate) (s : MState) : MState :=
  match lookupA s.instances instanceId with
  | none => s
  | some inst0 =>
    match inst0.socket with
    | none => s
    | some .created => handleCreatedUpdate now instanceId u inst0 s
    | some .reconnect => handleReconnectUpdate instanceId u inst0 s

/-- reconnectInstance (manual reconnect): guarded by the reconnecting set;
closes the socket, deletes the in-memory instance and its session files,
recreates it through createInstance, and releases the lock. -/
def reconnectInstance (now : Nat) (instanceId : String) (s : MState) : MState :=
  if s.reconnecting.contains instanceId then s
  else
    match lookupA s.instances instanceId with
    | none => s
    | some inst =>
      let s1 : MState := { s with reconnecting := s.reconnecting ++ [instanceId] }
      let s2 : MState := { s1 with instances := delA s1.instances instanceId }
      let s3 : MState := { s2 with creds := delA s2.creds instanceId }
      let s4 := createInstance now instanceId inst.name inst.webhookUrl s3
      { s4 with reconnecting := s4.reconnecting.filter (fun x => x != instanceId) }

inductive DeleteResult
  | ok
  | notFound
deriving DecidableEq, Repr

/-- deleteInstance: reports a missing instance; otherwise closes the
socket, removes the in-memory record, persists the registry and deletes
the session files.  It touches neither the reconnecting set nor the
websocket subscriber sets. -/
def deleteInstance (instanceId : String) (s : MState) : DeleteResult × MState :=
  match lookupA s.instances instanceId with
  | none => (.notFound, s)
  | some _ =>
    let s1 : MState := { s with instances := delA s.instances instanceId }
    let s2 := saveInstancesToFile s1
    (.ok, { s2 with creds := delA s2.creds instanceId })

/-- getInstance: returns the raw record stored in the instances Map. -/
def getInstance (s : MState) (instanceId : String) : Option Instance :=
  lookupA s.instances instanceId

/-- The object shape pushed by getAllInstances: only data-model fields. -/
structure Snapshot where
  id : String
  name : String
  status : Status
  phone : Option String
  webhookUrl : Option String
  createdAt : Nat
deriving DecidableEq, Repr

/-- getAllInstances: one snapshot per instance. -/
def getAllInstances (s : MState) : List Snapshot :=
  s.instances.map (fun e => ⟨e.1, e.2.name, e.2.status, e.2.phone, e.2.webhookUrl, e.2.createdAt⟩)

/-- saveCreds on a creds.update event from the live socket: persists the
credential blob for the instance. -/
def credsUpdate (instanceId : String) (c : CredInfo) (s : MState) : MState :=
  match lookupA s.instances instanceId with
  | some inst => if inst.socket.isSome then { s with creds := setA s.creds instanceId c } else s
  | none => s

/-- addWebSocketConnection. -/
def addWebSocketConnection (instanceId : String) (ws : Nat) (s : MState) : MState :=
  match lookupA s.wsConnections instanceId with
  | none => { s with wsConnections := setA s.wsConnections instanceId [ws] }
  | some l =>
    if l.contains ws then s
    else { s with wsConnections := setA s.wsConnections instanceId (l ++ [ws]) }

/-- removeWebSocketConnection. -/
def removeWebSocketConnection (instanceId : String) (ws : Nat) (s : MState) : MState :=
  match lookupA s.wsConnections instanceId with
  | none => s
  | some l =>
    { s with wsConnections := setA s.wsConnections instanceId (l.filter (fun x => x ≠ ws)) }

/-- The commands and external events that drive the manager. -/
inductive Op
  | createOp (now : Nat) (id name : String) (webhookUrl : Option String)
  | updateOp (now : Nat) (id : String) (u : ConnUpdate)
  | credsOp (id : String) (c : CredInfo)
  | reconnectOp (now : Nat) (id : String)
  | reconnectKeepOp (id : String)
  | deleteOp (id : String)
  | subscribeOp (id : String) (ws : Nat)
  | unsubscribeOp (id : String) (ws : Nat)
deriving DecidableEq, Repr

def runOp (s : MState) : Op → MState
  | .createOp now id name webhookUrl => createInstance now id name webhookUrl s
  | .updateOp now id u => handleUpdate now id u s
  | .credsOp id c => credsUpdate id c s
  | .reconnectOp now id => reconnectInstance now id s
  | .reconnectKeepOp id => reconnectWithoutDeletingSession id s
  | .deleteOp id => (deleteInstance id s).2
  | .subscribeOp id ws => addWebSocketConnection id ws s
  | .unsubscribeOp id ws => removeWebSocketConnection id ws s

def runOps (s : MState) (ops : List Op) : MState := ops.foldl runOp s

/-- Status of an instance as observed in a manager state. -/
def statusAt (s : MState) (id : String) : Option Status :=
  (lookupA s.instances id).map Instance.status

/-- Current qrCode of an instance as observed in a manager state. -/
def qrCodeAt (s : MState) (id : String) : Option (Option String) :=
  (lookupA s.instances id).map Instance.qrCode

/-- A close-only connection update, as delivered on connection close. -/
def closeUpd (code : Option Nat) (dev : Bool) : ConnUpdate :=
  ⟨false, none, some (.connClose code dev)⟩

/-- An open-only connection update, as delivered when the connection opens. -/
def openUpd (userId : Option String) : ConnUpdate :=
  ⟨false, none, some (.connOpen userId)⟩

end Srv

namespace Cli

/-- InstanceStatus from src/types/instance.ts. -/
inductive InstanceStatus
  | connected
  | disconnected
  | connecting
  | qr_pending
deriving DecidableEq, Repr

/-- JS or-expression on optional strings: an empty string is falsy. -/
def jsOrStr (a b : Option String) : Option String :=
  match a with
  | some s => if s = "" then b else some s
  | none => b

/-- One entry of the client mirror (the Instance interface of
src/types/instance.ts, dates as abstract ticks). -/
structure ClientInstance where
  id : String
  name : String
  phone : Option String
  status : InstanceStatus
  qrCode : Option String
  createdAt : Nat
  lastSeen : Option Nat
  apiKey : String
  webhookUrl : Option String
deriving DecidableEq, Repr

/-- updateInstanceStatus from src/contexts/InstanceContext.tsx: maps over
the mirror, updating only the entry with the given id; the phone is
cleared whenever the new status is disconnected, qr_pending or
connecting. -/
def updateInstanceStatus (now : Nat) (insts : List ClientInstance) (id : String)
    (status : InstanceStatus) (qrCode : Option String) (phone : Option String) :
    List ClientInstance :=
  insts.map (fun inst =>
    if inst.id = id then
      let shouldClearPhone : Bool :=
        status == .disconnected || status == .qr_pending || status == .connecting
      { inst with
        status := status,
        qrCode := jsOrStr qrCode (if shouldClearPhone then none else inst.qrCode),
        phone := if shouldClearPhone then none else jsOrStr phone inst.phone,
        lastSeen := if status == .connected then some now else inst.lastSeen }
    else inst)

/-- Per-card synchronizer state for a single instance
(src/components/InstanceCard.tsx): the mirrored status and phone plus
the mutable refs the card keeps. -/
structure CardState where
  status : InstanceStatus
  phone : Option String
  currentQR : Option String
  grace : Bool
  autoReconnectCount : Nat
  isStale : Bool
  isReconnecting : Bool
  reconnectAttempt : Nat
deriving DecidableEq, Repr

/-- Externally visible effects of a card handler: toasts shown to the
user and reconnect requests issued to the server. -/
inductive CardEffect
  | toastConnected
  | toastDisconnected
  | toastQrExpired
  | toastGenerating
  | reconnectRequest
deriving DecidableEq, Repr

def MAX_AUTO_RECONNECTS : Nat := 3

/-- Status-string mapping used in handleStatusChange. -/
def mapStatus (raw : String) : InstanceStatus :=
  if raw = "open" ∨ raw = "connected" then .connected
  else if raw = "connecting" then .connecting
  else if raw = "qr" ∨ raw = "qr_pending" then .qr_pending
  else .disconnected

/-- Effect of a context updateInstanceStatus call on this card's mirror
entry (same clearing rules as updateInstanceStatus). -/
def applyMirror (st : CardState) (status : InstanceStatus) (ph : Option String) : CardState :=
  let shouldClearPhone : Bool :=
    status == .disconnected || status == .qr_pending || status == .connecting
  { st with status := status,
            phone := if shouldClearPhone then none else jsOrStr ph st.phone }

/-- handleQRCode (websocket push channel): store the QR, mirror
qr_pending, and open the grace period. -/
def handleQRCode (qr : String) (st : CardState) : CardState :=
  let st1 := applyMirror { st with currentQR := some qr } .qr_pending none
  { st1 with grace := true }

/-- Successful pollForQRCode response (HTTP poll channel): store the QR,
mirror qr_pending, reset the reconnection-retry state, and open the
grace period. -/
def pollQRSuccess (qr : String) (st : CardState) : CardState :=
  let st1 := applyMirror { st with currentQR := some qr } .qr_pending none
  { st1 with isReconnecting := false, reconnectAttempt := 0, grace := true }

/-- handleStatusChange from src/components/InstanceCard.tsx. -/
def handleStatusChange (raw : String) (ph : Option String) (st : CardState) :
    CardState × List CardEffect :=
  let mapped := mapStatus raw
  if mapped = .connected then
    let st1 : CardState :=
      { st with autoReconnectCount := 0, isReconnecting := false, reconnectAttempt := 0,
                isStale := false, grace := false, currentQR := none }
    (applyMirror st1 .connected ph, [.toastConnected])
  else if mapped = .disconnected ∧ st.status = .connected then
    (applyMirror { st with currentQR := none } .disconnected none, [.toastDisconnected])
  else if mapped = .disconnected ∧ st.status = .qr_pending then
    if st.grace then (st, [])
    else if st.autoReconnectCount < MAX_AUTO_RECONNECTS then
      let st1 : CardState :=
        { st with autoReconnectCount := st.autoReconnectCount + 1, isStale := false,
                  isReconnecting := true, reconnectAttempt := 0, currentQR := none }
      (applyMirror st1 .qr_pending none, [.reconnectRequest])
    else
      let st1 : CardState := { st with autoReconnectCount := 0 }
      (applyMirror st1 .disconnected ph, [.toastQrExpired])
  else
    (applyMirror st mapped ph, [])

/-- A server-reported disconnected transition. -/
def discReport (st : CardState) : CardState × List CardEffect :=
  handleStatusChange "disconnected" none st

/-- handleConnect: reset all flags and counters, clear the QR, issue a
manual reconnect request, which mirrors the instance back to qr_pending. -/
def handleConnect (st : CardState) : CardState × List CardEffect :=
  let st1 : CardState :=
    { st with isStale := false, isReconnecting := true, reconnectAttempt := 0,
              autoReconnectCount := 0, currentQR := none }
  (applyMirror st1 .qr_pending none, [.reconnectRequest, .toastGenerating])

/-- QR-poll condition (InstanceCard.tsx line 130). -/
def shouldPollQR (st : CardState) : Bool :=
  (st.status == .qr_pending || st.status == .connecting) && st.currentQR == none

/-- Status-poll condition (InstanceCard.tsx line 348). -/
def shouldPollStatus (st : CardState) : Bool :=
  st.status == .qr_pending || st.status == .connected

/-- Websocket-enablement condition (InstanceCard.tsx line 382, with the
id present). -/
def wsEnabled (st : CardState) : Bool :=
  st.status != .disconnected

/-- Number of automatic reconnect requests issued over n consecutive
server-reported disconnected transitions. -/
def discIterCount : Nat → CardState → Nat
  | 0, _ => 0
  | n + 1, st =>
    let r := discReport st
    r.2.count .reconnectRequest + discIterCount n r.1

/-- State after n consecutive server-reported disconnected transitions. -/
def discIterState : Nat → CardState → CardState
  | 0, st => st
  | n + 1, st => discIterState n (discReport st).1

end Cli

section Claims

open Srv Cli

theorem handleUpdate_none {now : Nat} {id : String} {u : ConnUpdate} {s : MState}
    (hl : lookupA s.instances id = none) : handleUpdate now id u s = s := by
  simp [handleUpdate, hl]

theorem handleUpdate_noSocket {now : Nat} {id : String} {u : ConnUpdate} {s : MState}
    {inst : Srv.Instance} (hl : lookupA s.instances id = some inst)
    (hs : inst.socket = none) : handleUpdate now id u s = s := by
  simp [handleUpdate, hl, hs]

theorem handleUpdate_close_created {now : Nat} {id : String} {code : Option Nat} {dev : Bool}
    {s : MState} {inst : Srv.Instance} (hl : lookupA s.instances id = some inst)
    (hs : inst.socket = some .created) :
    handleUpdate now id (closeUpd code dev) s = createdClose now id code dev inst s := by
  simp [handleUpdate, hl, hs, handleCreatedUpdate, closeUpd]

theorem handleUpdate_close_reconnect {now : Nat} {id : String} {code : Option Nat} {dev : Bool}
    {s : MState} {inst : Srv.Instance} (hl : lookupA s.instances id = some inst)
    (hs : inst.socket = some .reconnect) :
    handleUpdate now id (closeUpd code dev) s =
      handleReconnectUpdate id (closeUpd code dev) inst s := by
  simp [handleUpdate, hl, hs]

theorem createdClose_401 {now : Nat} {id : String} {code : Option Nat} {dev : Bool}
    {s : MState} {inst : Srv.Instance} (h : code = some 401 ∨ dev = true) :
    createdClose now id code dev inst s =
      { s with
        instances := setA s.instances id { inst with
          status := .disconnected, qrCode := none, phone := none, hadNewLogin := false },
        reconnecting := s.reconnecting.filter (fun x => x != id),
        events := s.events ++
          [⟨id, .statusEv .disconnected none (some "device_removed")⟩],
        creds := delA s.creds id } := by
  rw [createdClose, if_pos (by rcases h with h | h; exact Or.inl h; exact Or.inr h)]
  rfl

theorem reconnectClose_401 {id : String} {code : Option Nat} {dev : Bool}
    {s : MState} {inst : Srv.Instance} (h : code = some 401 ∨ dev = true) :
    handleReconnectUpdate id (closeUpd code dev) inst s =
      { s with
        instances := setA s.instances id { inst with
          status := .disconnected, qrCode := none, phone := none, hadNewLogin := false },
        reconnecting := s.reconnecting.filter (fun x => x != id),
        events := s.events ++
          [⟨id, .statusEv .disconnected none (some "device_removed")⟩],
        creds := delA s.creds id } := by
  simp only [handleReconnectUpdate, closeUpd]
  rw [if_pos (by rcases h with h | h; exact Or.inl h; exact Or.inr h)]
  rfl

theorem reconnectClose_other {id : String} {code : Option Nat}
    {s : MState} {inst : Srv.Instance} (h : code ≠ some 401) :
    handleReconnectUpdate id (closeUpd code false) inst s = s := by
  simp only [handleReconnectUpdate, closeUpd]
  rw [if_neg (by simp [h]), if_neg (by simp [DisconnectReason.loggedOut, h])]

theorem reconnectKeep_creds (id : String) (s : MState) :
    (reconnectWithoutDeletingSession id s).creds = s.creds := by
  rw [reconnectWithoutDeletingSession]
  split
  · rfl
  · split <;> rfl

/-- The record createInstance registers for an id (before and after the
socket is attached its data fields are these; the attached socket carries
the created-handler). -/
def freshInstance (now : Nat) (name : String) (w : Option String) : Srv.Instance :=
  { name := name, webhookUrl := w, status := .connecting, qrCode := none,
    phone := none, hadNewLogin := false, socket := some .created, createdAt := now }

theorem createInstance_lookup_self (now : Nat) (id name : String) (w : Option String)
    (s : MState) :
    lookupA (createInstance now id name w s).instances id =
      some (freshInstance now name w) := by
  show lookupA (setA _ id _) id = _
  exact lookupA_setA_self _ _ _

/-- Claim C9: deleteInstance on an id with no live instance returns the
not-found outcome and leaves the whole manager state (instances,
reconnecting set, registry file, session files, subscribers, events)
unchanged; a second call returns the very same outcome. -/
theorem C9_delete_missing_is_pure_notFound (s : MState) (id : String)
    (h : lookupA s.instances id = none) :
    deleteInstance id s = (.notFound, s) ∧
    deleteInstance id (deleteInstance id s).2 = (.notFound, s) := by
  have h1 : deleteInstance id s = (.notFound, s) := by
    unfold deleteInstance
    rw [h]
  refine ⟨h1, ?_⟩
  rw [h1]
  exact h1

/-- Witness for C9 at the empty manager state. -/
theorem C9_delete_missing_is_pure_notFound_witness :
    deleteInstance "a" initState = (.notFound, initState) ∧
    deleteInstance "a" (deleteInstance "a" initState).2 = (.notFound, initState) :=
  C9_delete_missing_is_pure_notFound initState "a" rfl

/-- Claim C10: a client updateInstanceStatus call with status
disconnected, qr_pending or connecting clears the mirrored phone of the
targeted instance regardless of the phone argument, and leaves every
other entry of the mirror untouched (same length, identical entries at
every position whose id differs). -/
theorem C10_clearing_status_clears_phone (now : Nat) (insts : List ClientInstance)
    (id : String) (status : InstanceStatus) (qrCode phone : Option String)
    (h : status = .disconnected ∨ status = .qr_pending ∨ status = .connecting) :
    (∀ inst' ∈ updateInstanceStatus now insts id status qrCode phone,
        inst'.id = id → inst'.phone = none) ∧
    (updateInstanceStatus now insts id status qrCode phone).length = insts.length ∧
    (∀ i : Nat, (∀ inst, insts[i]? = some inst → inst.id ≠ id) →
        (updateInstanceStatus now insts id status qrCode phone)[i]? = insts[i]?) := by
  have hclear : (status == InstanceStatus.disconnected || status == .qr_pending ||
      status == .connecting) = true := by
    rcases h with h | h | h <;> subst h <;> rfl
  refine ⟨?_, ?_, ?_⟩
  · intro inst' hmem hid
    rw [updateInstanceStatus] at hmem
    rcases List.mem_map.mp hmem with ⟨inst, hin, heq⟩
    by_cases hi : inst.id = id
    · rw [if_pos hi] at heq
      rw [← heq]
      simp [hclear]
    · rw [if_neg hi] at heq
      rw [← heq] at hid
      exact absurd hid hi
  · rw [updateInstanceStatus, List.length_map]
  · intro i hne
    rw [updateInstanceStatus, List.getElem?_map]
    cases hg : insts[i]? with
    | none => rfl
    | some inst =>
      have := hne inst hg
      simp [this]

/-- Witness for C10: a two-entry mirror, a disconnected report for the
first entry; its phone is cleared and the second entry is untouched. -/
theorem C10_clearing_status_clears_phone_witness :
    (∀ inst' ∈ updateInstanceStatus 5
        [⟨"a", "A", some "5511", .connected, none, 0, none, "k1", none⟩,
         ⟨"b", "B", some "5522", .connected, none, 0, none, "k2", none⟩]
        "a" .disconnected none (some "9999"),
      inst'.id = "a" → inst'.phone = none) ∧
    (updateInstanceStatus 5
        [⟨"a", "A", some "5511", .connected, none, 0, none, "k1", none⟩,
         ⟨"b", "B", some "5522", .connected, none, 0, none, "k2", none⟩]
        "a" .disconnected none (some "9999")).length = 2 ∧
    (∀ i : Nat, (∀ inst,
        [ClientInstance.mk "a" "A" (some "5511") .connected none 0 none "k1" none,
         ClientInstance.mk "b" "B" (some "5522") .connected none 0 none "k2" none][i]? =
          some inst → inst.id ≠ "a") →
      (updateInstanceStatus 5
        [⟨"a", "A", some "5511", .connected, none, 0, none, "k1", none⟩,
         ⟨"b", "B", some "5522", .connected, none, 0, none, "k2", none⟩]
        "a" .disconnected none (some "9999"))[i]? =
      [ClientInstance.mk "a" "A" (some "5511") .connected none 0 none "k1" none,
       ClientInstance.mk "b" "B" (some "5522") .connected none 0 none "k2" none][i]?) :=
  C10_clearing_status_clears_phone 5 _ "a" .disconnected none (some "9999") (Or.inl rfl)

/-- A live instance record used in concrete scenarios. -/
def liveInst : Srv.Instance :=
  { name := "A", webhookUrl := none, status := .connecting, qrCode := none, phone := none,
    hadNewLogin := false, socket := some .created, createdAt := 0 }

/-- Manager state with instance a live, its reconnect lock held (for
example an in-flight credential-preserving reconnect) and one push
subscriber attached. -/
def c7State : MState :=
  { initState with
    instances := [("a", { liveInst with socket := some .reconnect, status := .connecting })],
    reconnecting := ["a"],
    creds := [("a", ⟨2500, true, true, true, true⟩)],
    wsConnections := [("a", [7])] }

/-- Claim C7 failing run: deleteInstance succeeds and removes the
instance and its credentials, but the id is still in the reconnecting
set (the reconnectLock is not released) and the push-channel subscriber
set for the id is still present (not pruned). -/
theorem C7_delete_keeps_lock_and_subscribers :
    (deleteInstance "a" c7State).1 = .ok ∧
    lookupA (deleteInstance "a" c7State).2.instances "a" = none ∧
    lookupA (deleteInstance "a" c7State).2.creds "a" = none ∧
    (deleteInstance "a" c7State).2.reconnecting = ["a"] ∧
    lookupA (deleteInstance "a" c7State).2.wsConnections "a" = some [7] := by
  refine ⟨rfl, rfl, rfl, rfl, rfl⟩

/-- Manager state with one live instance whose socket is up. -/
def c8State : MState := { initState with instances := [("a", liveInst)] }

/-- Claim C8 counterexample: getInstance does not return a snapshot of
data-model fields; it returns the raw in-memory record, whose socket
field carries the live connection handle. -/
theorem C8_getInstance_exposes_socket :
    (getInstance c8State "a").map Srv.Instance.socket = some (some .created) := rfl

/-- Replace the socket handle stored for one instance, leaving every
data-model field alone. -/
def setSocketOf (s : MState) (id : String) (sock : Option HandlerKind) : MState :=
  { s with
    instances := s.instances.map
      (fun e => if e.1 = id then (e.1, { e.2 with socket := sock }) else e) }

/-- Claim C8 amended: getAllInstances returns snapshots carrying only the
data-model fields id, name, status, phone, webhookUrl, createdAt — its
output is unaffected by the live connection handle — whereas getInstance
returns the raw record stored in the instances Map (socket included). -/
theorem C8_amended_snapshots (s : MState) (id : String) (sock : Option HandlerKind) :
    getAllInstances (setSocketOf s id sock) = getAllInstances s ∧
    getInstance s id = lookupA s.instances id := by
  refine ⟨?_, rfl⟩
  rw [getAllInstances, getAllInstances, setSocketOf, List.map_map]
  apply List.map_congr_left
  intro e _
  by_cases h : e.1 = id
  · simp [h]
  · simp [h]

/-- Witness for C8 amended: swapping out the live socket handle of a
concrete state does not change the getAllInstances output. -/
theorem C8_amended_snapshots_witness :
    getAllInstances (setSocketOf c8State "a" none) = getAllInstances c8State ∧
    getInstance c8State "a" = lookupA c8State.instances "a" :=
  C8_amended_snapshots c8State "a" none

/-- Manager state right after a fresh pairing: instance a live with the
created-handler, hadNewLogin set by the isNewLogin update, and the
credentials written during pairing present on disk. -/
def c2State : MState :=
  { initState with
    instances := [("a", { liveInst with hadNewLogin := true })],
    creds := [("a", ⟨2500, true, true, true, true⟩)] }

/-- Claim C2 counterexample: a stream-error close (515) right after a
fresh pairing (hadNewLogin) deletes the persisted credentials, although
515 is a transient-transport close, which the claim says never removes
credentials. -/
theorem C2_counterexample_515_after_pairing_deletes_creds :
    lookupA c2State.creds "a" = some ⟨2500, true, true, true, true⟩ ∧
    lookupA (handleUpdate 1 "a" (closeUpd (some 515) false) c2State).creds "a" = none := by
  refine ⟨rfl, rfl⟩

/-- Claim C2 amended: a terminal-auth close (401 or device-removed, which
also covers logged-out since DisconnectReason.loggedOut is 401) always
yields status disconnected with the credentials removed; a 428 close or
an unrecognized close code never removes credentials, and neither does
any non-401 close seen by the reconnect-handler; a 515 close preserves
the credentials only on an established session (no fresh pairing) whose
persisted credentials pass the structural validity check; after a fresh
pairing (hadNewLogin), or when the persisted credentials fail the
structural validity check, the 515 close deletes the session files and
starts a fresh pairing cycle: a qr_pending notification is emitted and
createInstance re-registers the instance fresh (status connecting, no
qrCode, no phone, a new created-handler socket). -/
theorem C2_amended_close_classification (now : Nat) (s : MState) (id : String)
    (inst : Srv.Instance) (hk : HandlerKind) (code : Option Nat) (dev : Bool)
    (hl : lookupA s.instances id = some inst) (hs : inst.socket = some hk) :
    ((code = some 401 ∨ dev = true) →
      statusAt (handleUpdate now id (closeUpd code dev) s) id = some .disconnected ∧
      lookupA (handleUpdate now id (closeUpd code dev) s).creds id = none) ∧
    (hk = .created → code = some 428 → dev = false →
      (handleUpdate now id (closeUpd code dev) s).creds = s.creds) ∧
    (code ≠ some 401 → code ≠ some 515 → code ≠ some 428 → dev = false →
      (handleUpdate now id (closeUpd code dev) s).creds = s.creds) ∧
    (hk = .created → code = some 515 → dev = false → inst.hadNewLogin = false →
      (∃ c, lookupA s.creds id = some c ∧ credsValidCheck c = true) →
      (handleUpdate now id (closeUpd code dev) s).creds = s.creds) ∧
    (hk = .created → code = some 515 → dev = false → inst.hadNewLogin = true →
      lookupA (handleUpdate now id (closeUpd code dev) s).creds id = none ∧
      lookupA (handleUpdate now id (closeUpd code dev) s).instances id =
        some (freshInstance now inst.name inst.webhookUrl) ∧
      (handleUpdate now id (closeUpd code dev) s).events =
        s.events ++ [⟨id, .statusEv .qr_pending none none⟩]) ∧
    (hk = .created → code = some 515 → dev = false → inst.hadNewLogin = false →
      (∀ c, lookupA s.creds id = some c → credsValidCheck c = false) →
      lookupA (handleUpdate now id (closeUpd code dev) s).creds id = none ∧
      lookupA (handleUpdate now id (closeUpd code dev) s).instances id =
        some (freshInstance now inst.name inst.webhookUrl) ∧
      (handleUpdate now id (closeUpd code dev) s).events =
        s.events ++ [⟨id, .statusEv .qr_pending none none⟩]) ∧
    (hk = .reconnect → code ≠ some 401 → dev = false →
      (handleUpdate now id (closeUpd code dev) s).creds = s.creds) := by
  refine ⟨?_, ?_, ?_, ?_, ?_, ?_, ?_⟩
  · intro h401
    cases hk with
    | created =>
      rw [handleUpdate_close_created hl hs, createdClose_401 h401]
      constructor
      · rw [statusAt]
        simp [lookupA_setA_self]
      · exact lookupA_delA_self _ _
    | reconnect =>
      rw [handleUpdate_close_reconnect hl hs, reconnectClose_401 h401]
      constructor
      · rw [statusAt]
        simp [lookupA_setA_self]
      · exact lookupA_delA_self _ _
  · intro hkk h428 hdev
    subst hkk h428 hdev
    rw [handleUpdate_close_created hl hs, createdClose]
    rw [if_neg (by simp), if_neg (by simp), if_pos rfl]
    exact reconnectKeep_creds _ _
  · intro h401 h515 h428 hdev
    subst hdev
    cases hk with
    | created =>
      rw [handleUpdate_close_created hl hs, createdClose]
      rw [if_neg (by simp [h401]), if_neg (by simp [h515]), if_neg (by simp [h428]),
        if_neg (by simp [DisconnectReason.loggedOut, h401])]
    | reconnect =>
      rw [handleUpdate_close_reconnect hl hs, reconnectClose_other h401]
  · intro hkk h515 hdev hnl hvalid
    subst hkk h515 hdev
    obtain ⟨c, hc, hcv⟩ := hvalid
    rw [handleUpdate_close_created hl hs, createdClose]
    rw [if_neg (by simp), if_pos rfl, if_neg (by simp [hnl]), hc]
    rw [if_pos hcv]
    exact reconnectKeep_creds _ _
  · intro hkk h515 hdev hnl
    subst hkk h515 hdev
    rw [handleUpdate_close_created hl hs, createdClose]
    rw [if_neg (by simp), if_pos rfl, if_pos (by simp [hnl])]
    refine ⟨?_, ?_, ?_⟩
    · simp only [createInstance, saveInstancesToFile, notifyWebSocket]
      exact lookupA_delA_self _ _
    · exact createInstance_lookup_self _ _ _ _ _
    · rfl
  · intro hkk h515 hdev hnl hinv
    subst hkk h515 hdev
    rw [handleUpdate_close_created hl hs, createdClose]
    rw [if_neg (by simp), if_pos rfl, if_neg (by simp [hnl])]
    have hcond : (match lookupA s.creds id with
        | some c => credsValidCheck c
        | none => false) = false := by
      cases hc : lookupA s.creds id with
      | none => rfl
      | some c => exact hinv c hc
    rw [hcond, if_neg Bool.false_ne_true]
    refine ⟨?_, ?_, ?_⟩
    · simp only [createInstance, saveInstancesToFile, notifyWebSocket]
      exact lookupA_delA_self _ _
    · exact createInstance_lookup_self _ _ _ _ _
    · rfl
  · intro hkk h401 hdev
    subst hkk hdev
    rw [handleUpdate_close_reconnect hl hs, reconnectClose_other h401]

/-- Witness for C2 amended: on a live instance with credentials on disk,
a 401 close ends disconnected with the credentials removed, and a 515
close right after the fresh pairing deletes the credentials and restarts
a fresh pairing cycle. -/
theorem C2_amended_close_classification_witness :
    (statusAt (handleUpdate 1 "a" (closeUpd (some 401) false) c2State) "a" =
        some .disconnected ∧
      lookupA (handleUpdate 1 "a" (closeUpd (some 401) false) c2State).creds "a" = none) ∧
    (lookupA (handleUpdate 1 "a" (closeUpd (some 515) false) c2State).creds "a" = none ∧
      lookupA (handleUpdate 1 "a" (closeUpd (some 515) false) c2State).instances "a" =
        some (freshInstance 1 "A" none) ∧
      (handleUpdate 1 "a" (closeUpd (some 515) false) c2State).events =
        c2State.events ++ [⟨"a", .statusEv .qr_pending none none⟩]) :=
  ⟨(C2_amended_close_classification 1 c2State "a" { liveInst with hadNewLogin := true }
      .created (some 401) false rfl rfl).1 (Or.inl rfl),
   (C2_amended_close_classification 1 c2State "a" { liveInst with hadNewLogin := true }
      .created (some 515) false rfl rfl).2.2.2.2.1 rfl rfl rfl rfl⟩

theorem mapStatus_disconnected : mapStatus "disconnected" = .disconnected := rfl

/-- Case normal form of one server-reported disconnected transition. -/
theorem discReport_eq (st : CardState) :
    discReport st =
      if st.status = .connected then
        (applyMirror { st with currentQR := none } .disconnected none, [.toastDisconnected])
      else if st.status = .qr_pending then
        if st.grace then (st, [])
        else if st.autoReconnectCount < MAX_AUTO_RECONNECTS then
          (applyMirror { st with
            autoReconnectCount := st.autoReconnectCount + 1, isStale := false,
            isReconnecting := true, reconnectAttempt := 0,
            currentQR := none } .qr_pending none, [.reconnectRequest])
        else
          (applyMirror { st with autoReconnectCount := 0 } .disconnected none,
            [.toastQrExpired])
      else (applyMirror st .disconnected none, []) := by
  rw [discReport, handleStatusChange]
  simp only [mapStatus_disconnected]
  simp

theorem applyMirror_status (st : CardState) (v : InstanceStatus) (ph : Option String) :
    (applyMirror st v ph).status = v := rfl

theorem applyMirror_grace (st : CardState) (v : InstanceStatus) (ph : Option String) :
    (applyMirror st v ph).grace = st.grace := rfl

/-- Bound on automatic reconnect requests over any run of consecutive
disconnected reports, measured against the remaining retry budget. -/
theorem discIterCount_le_budget (n : Nat) (st : CardState) (hg : st.grace = false) :
    discIterCount n st ≤
      (if st.status = .qr_pending then MAX_AUTO_RECONNECTS - st.autoReconnectCount else 0) := by
  induction n generalizing st with
  | zero =>
    rw [discIterCount]
    exact Nat.zero_le _
  | succ n ih =>
    rw [discIterCount, discReport_eq]
    by_cases h1 : st.status = .connected
    · rw [if_pos h1]
      have hrec := ih (applyMirror { st with currentQR := none } .disconnected none)
        (by rw [applyMirror_grace]; exact hg)
      rw [applyMirror_status] at hrec
      rw [if_neg (show ¬(InstanceStatus.disconnected = .qr_pending) by decide)] at hrec
      have hne : st.status ≠ .qr_pending := by rw [h1]; decide
      rw [if_neg hne]
      simpa using hrec
    · rw [if_neg h1]
      by_cases h2 : st.status = .qr_pending
      · rw [if_pos h2, if_neg (by rw [hg]; exact Bool.false_ne_true)]
        by_cases h3 : st.autoReconnectCount < MAX_AUTO_RECONNECTS
        · rw [if_pos h3]
          have hrec := ih (applyMirror { st with
              autoReconnectCount := st.autoReconnectCount + 1, isStale := false,
              isReconnecting := true, reconnectAttempt := 0,
              currentQR := none } .qr_pending none) (by rw [applyMirror_grace]; exact hg)
          rw [applyMirror_status, if_pos rfl] at hrec
          have hcount : (applyMirror { st with
              autoReconnectCount := st.autoReconnectCount + 1, isStale := false,
              isReconnecting := true, reconnectAttempt := 0,
              currentQR := none } .qr_pending none).autoReconnectCount =
              st.autoReconnectCount + 1 := rfl
          rw [hcount] at hrec
          rw [if_pos h2]
          simp
          omega
        · rw [if_neg h3]
          have hrec := ih (applyMirror { st with autoReconnectCount := 0 }
              .disconnected none) (by rw [applyMirror_grace]; exact hg)
          rw [applyMirror_status] at hrec
          rw [if_neg (show ¬(InstanceStatus.disconnected = .qr_pending) by decide)] at hrec
          rw [if_pos h2]
          simp
          omega
      · rw [if_neg h2]
        have hrec := ih (applyMirror st .disconnected none)
          (by rw [applyMirror_grace]; exact hg)
        rw [applyMirror_status] at hrec
        rw [if_neg (show ¬(InstanceStatus.disconnected = .qr_pending) by decide)] at hrec
        rw [if_neg h2]
        simpa using hrec

/-- Claim C5: a QR received through either channel (websocket push or
HTTP poll) opens the grace period, and a server-reported disconnected
transition arriving while the local status is qr_pending and the grace
period is active is ignored completely: the card state (including the
mirrored status) is unchanged and no effect (no toast, no reconnect) is
produced. -/
theorem C5_grace_period_suppresses_disconnect :
    (∀ qr st, (handleQRCode qr st).grace = true ∧ (pollQRSuccess qr st).grace = true) ∧
    (∀ raw ph st, mapStatus raw = .disconnected → st.status = .qr_pending →
      st.grace = true → handleStatusChange raw ph st = (st, [])) := by
  refine ⟨fun qr st => ⟨rfl, rfl⟩, ?_⟩
  intro raw ph st hm hst hgr
  rw [handleStatusChange]
  simp only [hm]
  rw [if_neg (by decide), if_neg (by rw [hst]; simp), if_pos ⟨trivial, hst⟩, if_pos hgr]

/-- A qr_pending card inside the grace period. -/
def c5State : CardState :=
  { status := .qr_pending, phone := none, currentQR := some "Q", grace := true,
    autoReconnectCount := 0, isStale := false, isReconnecting := false,
    reconnectAttempt := 0 }

/-- Witness for C5 at a concrete grace-period state. -/
theorem C5_grace_period_suppresses_disconnect_witness :
    (handleQRCode "Q" c5State).grace = true ∧
    handleStatusChange "disconnected" none c5State = (c5State, []) :=
  ⟨(C5_grace_period_suppresses_disconnect.1 "Q" c5State).1,
   C5_grace_period_suppresses_disconnect.2 "disconnected" none c5State rfl rfl rfl⟩

/-- Claim C6: outside the grace period a disconnected report in
qr_pending triggers at most MAX_AUTO_RECONNECTS (3) automatic reconnect
requests over any run of reports; once the budget is exhausted the next
report settles the card to disconnected with no reconnect request, a
disconnected card never auto-reconnects (all polling conditions and the
push channel are off), and a manual connect resets the counter, issues
the reconnect and resumes the polling conditions. -/
theorem C6_bounded_auto_reconnect :
    (∀ n st, st.grace = false → discIterCount n st ≤ MAX_AUTO_RECONNECTS) ∧
    (∀ st, st.status = .qr_pending → st.grace = false →
      MAX_AUTO_RECONNECTS ≤ st.autoReconnectCount →
      (discReport st).1.status = .disconnected ∧
      (discReport st).2.count .reconnectRequest = 0) ∧
    (∀ st, st.status = .disconnected →
      (discReport st).1.status = .disconnected ∧
      (discReport st).2.count .reconnectRequest = 0 ∧
      shouldPollQR st = false ∧ shouldPollStatus st = false ∧ wsEnabled st = false) ∧
    (∀ st, (handleConnect st).1.autoReconnectCount = 0 ∧
      (handleConnect st).2.count .reconnectRequest = 1 ∧
      shouldPollQR (handleConnect st).1 = true ∧
      shouldPollStatus (handleConnect st).1 = true) := by
  refine ⟨?_, ?_, ?_, ?_⟩
  · intro n st hg
    have h := discIterCount_le_budget n st hg
    by_cases h2 : st.status = .qr_pending
    · rw [if_pos h2] at h
      exact le_trans h (Nat.sub_le _ _)
    · rw [if_neg h2] at h
      exact le_trans h (Nat.zero_le _)
  · intro st h2 hg h3
    rw [discReport_eq, if_neg (by rw [h2]; decide), if_pos h2,
      if_neg (by rw [hg]; exact Bool.false_ne_true), if_neg (by omega)]
    exact ⟨rfl, rfl⟩
  · intro st h2
    rw [discReport_eq, if_neg (by rw [h2]; decide), if_neg (by rw [h2]; decide)]
    refine ⟨rfl, rfl, ?_, ?_, ?_⟩ <;> simp [shouldPollQR, shouldPollStatus, wsEnabled, h2]
  · intro st
    exact ⟨rfl, rfl, rfl, rfl⟩

/-- A qr_pending card outside the grace period with the retry budget
exhausted. -/
def c6State : CardState :=
  { status := .qr_pending, phone := none, currentQR := none, grace := false,
    autoReconnectCount := 3, isStale := false, isReconnecting := true,
    reconnectAttempt := 0 }

/-- Witness for C6 at concrete states. -/
theorem C6_bounded_auto_reconnect_witness :
    discIterCount 10 { c6State with autoReconnectCount := 0 } ≤ MAX_AUTO_RECONNECTS ∧
    ((discReport c6State).1.status = .disconnected ∧
      (discReport c6State).2.count .reconnectRequest = 0) ∧
    ((discReport { c6State with status := .disconnected }).1.status = .disconnected ∧
      (discReport { c6State with status := .disconnected }).2.count .reconnectRequest = 0 ∧
      shouldPollQR { c6State with status := .disconnected } = false ∧
      shouldPollStatus { c6State with status := .disconnected } = false ∧
      wsEnabled { c6State with status := .disconnected } = false) ∧
    ((handleConnect c6State).1.autoReconnectCount = 0 ∧
      (handleConnect c6State).2.count .reconnectRequest = 1 ∧
      shouldPollQR (handleConnect c6State).1 = true ∧
      shouldPollStatus (handleConnect c6State).1 = true) :=
  ⟨C6_bounded_auto_reconnect.1 10 _ rfl,
   C6_bounded_auto_reconnect.2.1 c6State rfl rfl (by decide),
   C6_bounded_auto_reconnect.2.2.1 _ rfl,
   C6_bounded_auto_reconnect.2.2.2 c6State⟩

/-- An instance is connected with resolved phone p. -/
def ConnWith (i : Srv.Instance) (p : String) : Prop :=
  i.status = .connected ∧ i.phone = some p

/-- No two distinct instance entries are connected with the same phone. -/
def NoDouble (a b : Srv.Instance) : Prop := ∀ p, ¬(ConnWith a p ∧ ConnWith b p)

/-- The one-phone-one-connection observation on a manager state. -/
def AtMostOnePerPhone (s : MState) : Prop :=
  s.instances.Pairwise (fun a b => NoDouble a.2 b.2)

/-- A qrCode is only ever present while the status is qr_pending. -/
def GoodInst (i : Srv.Instance) : Prop := i.qrCode ≠ none → i.status = .qr_pending

/-- Combined inductive invariant on the instances list. -/
def GoodList (xs : List (String × Srv.Instance)) : Prop :=
  NodupKeys xs ∧ xs.Pairwise (fun a b => NoDouble a.2 b.2) ∧ ∀ e ∈ xs, GoodInst e.2

theorem noDouble_symm {a b : Srv.Instance} (h : NoDouble a b) : NoDouble b a :=
  fun p hc => h p ⟨hc.2, hc.1⟩

theorem noDouble_left_not_connected {a b : Srv.Instance} (h : a.status ≠ .connected) :
    NoDouble a b := fun _ hc => h hc.1.1

theorem noDouble_left_phone_none {a b : Srv.Instance} (h : a.phone = none) :
    NoDouble a b := fun p hc => by
  have := hc.1.2
  rw [h] at this
  exact Option.noConfusion this

theorem noDouble_congr_left {a a' b : Srv.Instance} (hst : a'.status = a.status)
    (hph : a'.phone = a.phone) (h : NoDouble a b) : NoDouble a' b := by
  intro p hc
  exact h p ⟨⟨hst ▸ hc.1.1, hph ▸ hc.1.2⟩, hc.2⟩

theorem goodInst_of_qr_none {i : Srv.Instance} (h : i.qrCode = none) : GoodInst i :=
  fun hq => absurd h hq

theorem goodInst_of_pending {i : Srv.Instance} (h : i.status = .qr_pending) : GoodInst i :=
  fun _ => h

/-- From a pairwise NoDouble list: a looked-up entry is NoDouble with
every entry under a different key. -/
theorem pairwise_noDouble_lookup {xs : List (String × Srv.Instance)} {k : String}
    {v : Srv.Instance} (hp : xs.Pairwise (fun a b => NoDouble a.2 b.2))
    (hmem : (k, v) ∈ xs) :
    ∀ e ∈ xs, e.1 ≠ k → NoDouble v e.2 := by
  intro e he hne
  have hsym : Symmetric (fun a b : String × Srv.Instance => NoDouble a.2 b.2) :=
    fun a b h => noDouble_symm h
  have hall := List.Pairwise.forall hsym hp
  have : (k, v) ≠ e := by
    intro hcontra
    rw [← hcontra] at hne
    exact hne rfl
  exact hall hmem he this

theorem pairwise_noDouble_setA (k : String) (v : Srv.Instance) :
    ∀ xs : List (String × Srv.Instance), NodupKeys xs →
      xs.Pairwise (fun a b => NoDouble a.2 b.2) →
      (∀ e ∈ xs, e.1 ≠ k → NoDouble v e.2) →
      (setA xs k v).Pairwise (fun a b => NoDouble a.2 b.2) := by
  intro xs
  induction xs with
  | nil =>
    intro _ _ _
    simp [setA]
  | cons e0 rest ih =>
    intro h1 h2 hnd
    obtain ⟨k0, v0⟩ := e0
    rw [NodupKeys, List.pairwise_cons] at h1
    rw [List.pairwise_cons] at h2
    by_cases h0 : k0 = k
    · subst h0
      rw [setA, if_pos rfl, List.pairwise_cons]
      refine ⟨?_, h2.2⟩
      intro e he
      exact hnd e (List.mem_cons_of_mem _ he) (Ne.symm (h1.1 e he))
    · rw [setA, if_neg h0, List.pairwise_cons]
      refine ⟨?_, ih h1.2 h2.2 (fun e he hne => hnd e (List.mem_cons_of_mem _ he) hne)⟩
      intro e' he'
      rcases mem_setA rest k v e' he' with h' | h'
      · exact h2.1 e' h'
      · subst h'
        exact noDouble_symm (hnd (k0, v0) (List.mem_cons_self _ _) h0)

theorem goodList_setA {xs : List (String × Srv.Instance)} {k : String} {v : Srv.Instance}
    (h : GoodList xs) (hg : GoodInst v)
    (hnd : ∀ e ∈ xs, e.1 ≠ k → NoDouble v e.2) : GoodList (setA xs k v) := by
  obtain ⟨h1, h2, h3⟩ := h
  refine ⟨nodupKeys_setA xs k v h1, pairwise_noDouble_setA k v xs h1 h2 hnd, ?_⟩
  intro e he
  rcases mem_setA xs k v e he with h' | h'
  · exact h3 e h'
  · subst h'
    exact hg

theorem pairwise_noDouble_delA (k : String) :
    ∀ xs : List (String × Srv.Instance),
      xs.Pairwise (fun a b => NoDouble a.2 b.2) →
      (delA xs k).Pairwise (fun a b => NoDouble a.2 b.2) := by
  intro xs
  induction xs with
  | nil =>
    intro _
    simp [delA]
  | cons e0 rest ih =>
    intro h2
    obtain ⟨k0, v0⟩ := e0
    rw [List.pairwise_cons] at h2
    by_cases h0 : k0 = k
    · rw [delA, if_pos h0]
      exact ih h2.2
    · rw [delA, if_neg h0, List.pairwise_cons]
      exact ⟨fun e he => h2.1 e (mem_delA rest k e he), ih h2.2⟩

theorem goodList_delA {xs : List (String × Srv.Instance)} {k : String}
    (h : GoodList xs) : GoodList (delA xs k) := by
  obtain ⟨h1, h2, h3⟩ := h
  exact ⟨nodupKeys_delA xs k h1, pairwise_noDouble_delA k xs h2,
    fun e he => h3 e (mem_delA xs k e he)⟩

/-- The entry transformer of disconnectOtherInstancesWithPhone. -/
def discF (phone currentId : String) (e : String × Srv.Instance) : String × Srv.Instance :=
  if discMatch phone currentId e then (e.1, discClear e.2) else e

theorem discF_fst (phone currentId : String) (e : String × Srv.Instance) :
    (discF phone currentId e).1 = e.1 := by
  rw [discF]
  split <;> rfl

theorem goodList_discMap {xs : List (String × Srv.Instance)} (phone currentId : String)
    (h : GoodList xs) : GoodList (xs.map (discF phone currentId)) := by
  obtain ⟨h1, h2, h3⟩ := h
  refine ⟨nodupKeys_map xs _ (discF_fst phone currentId) h1, ?_, ?_⟩
  · rw [List.pairwise_map]
    refine h2.imp ?_
    intro a b hnd
    rw [discF, discF]
    split
    · split
      · exact noDouble_left_not_connected (by rw [discClear]; intro hc; exact Status.noConfusion hc)
      · exact noDouble_left_not_connected (by rw [discClear]; intro hc; exact Status.noConfusion hc)
    · split
      · exact noDouble_symm (noDouble_left_not_connected
          (by rw [discClear]; intro hc; exact Status.noConfusion hc))
      · exact hnd
  · intro e he
    rcases List.mem_map.mp he with ⟨e0, he0, heq⟩
    subst heq
    rw [discF]
    split
    · exact goodInst_of_qr_none rfl
    · exact h3 e0 he0

theorem discMatch_iff {phone currentId : String} {e : String × Srv.Instance} :
    discMatch phone currentId e = true ↔
      e.1 ≠ currentId ∧ e.2.phone = some phone ∧ e.2.status = .connected := by
  rw [discMatch]
  simp [and_assoc]

/-- After disconnectOtherInstancesWithPhone, no entry under another key
is still connected with that phone. -/
theorem discOther_no_conn (phone currentId : String) (s : MState) :
    ∀ e ∈ (disconnectOtherInstancesWithPhone phone currentId s).instances,
      e.1 ≠ currentId → ¬ConnWith e.2 phone := by
  intro e he hne hc
  rcases List.mem_map.mp he with ⟨e0, he0, heq⟩
  by_cases hm : discMatch phone currentId e0
  · rw [if_pos hm] at heq
    rw [← heq] at hc
    exact Status.noConfusion (hc.1 : (discClear e0.2).status = _)
  · rw [if_neg hm] at heq
    subst heq
    exact hm (discMatch_iff.mpr ⟨hne, hc.2, hc.1⟩)

theorem discOther_instances (phone currentId : String) (s : MState) :
    (disconnectOtherInstancesWithPhone phone currentId s).instances =
      s.instances.map (discF phone currentId) := rfl

theorem goodList_createInstance (now : Nat) (id name : String) (w : Option String)
    (s : MState) (h : GoodList s.instances) :
    GoodList (createInstance now id name w s).instances := by
  rw [createInstance]
  simp only [saveInstancesToFile]
  refine goodList_setA (goodList_setA (goodList_delA h) (goodInst_of_qr_none rfl) ?_)
    (goodInst_of_qr_none rfl) ?_
  · intro e he hne
    exact noDouble_left_not_connected (fun hc => Status.noConfusion hc)
  · intro e he hne
    exact noDouble_left_not_connected (fun hc => Status.noConfusion hc)

theorem goodList_reconnectKeep (id : String) (s : MState) (h : GoodList s.instances) :
    GoodList (reconnectWithoutDeletingSession id s).instances := by
  rw [reconnectWithoutDeletingSession]
  split
  · exact h
  · split
    · exact h
    · exact goodList_setA h (goodInst_of_qr_none rfl)
        (fun e he hne => noDouble_left_not_connected (fun hc => Status.noConfusion hc))

theorem goodList_openUpdate (id : String) (phoneR : Option String) (clear : Bool)
    (inst : Srv.Instance) (s : MState) (h : GoodList s.instances) :
    GoodList (openUpdate id phoneR clear inst s).instances := by
  cases phoneR with
  | none =>
    exact goodList_setA h (goodInst_of_qr_none rfl)
      (fun e he hne => noDouble_left_phone_none rfl)
  | some p =>
    have h1 : GoodList (disconnectOtherInstancesWithPhone p id s).instances := by
      rw [discOther_instances]
      exact goodList_discMap p id h
    refine goodList_setA h1 (goodInst_of_qr_none rfl) ?_
    intro e he hne q hq
    have hqp : q = p := by
      have hph : some p = some q := hq.1.2
      injection hph with hph
      exact hph.symm
    exact discOther_no_conn p id s e he hne (hqp ▸ hq.2)

theorem goodList_setA_disc {xs : List (String × Srv.Instance)} {k : String}
    {v : Srv.Instance} (h : GoodList xs) (hq : v.qrCode = none)
    (hst : v.status ≠ .connected) : GoodList (setA xs k v) :=
  goodList_setA h (goodInst_of_qr_none hq)
    (fun _ _ _ => noDouble_left_not_connected hst)

theorem goodList_setA_pending {xs : List (String × Srv.Instance)} {k : String}
    {v : Srv.Instance} (h : GoodList xs) (hst : v.status = .qr_pending) :
    GoodList (setA xs k v) :=
  goodList_setA h (goodInst_of_pending hst)
    (fun _ _ _ => noDouble_left_not_connected (fun hc => by
      rw [hst] at hc
      exact Status.noConfusion hc))

theorem goodList_createdClose (now : Nat) (id : String) (code : Option Nat) (dev : Bool)
    (inst : Srv.Instance) (s : MState) (h : GoodList s.instances) :
    GoodList (createdClose now id code dev inst s).instances := by
  simp only [createdClose]
  split
  · exact goodList_setA_disc h rfl (fun hc => Status.noConfusion hc)
  · split
    · split
      · exact goodList_createInstance now id inst.name inst.webhookUrl _
          (goodList_setA_disc h rfl (fun hc => Status.noConfusion hc))
      · split
        · exact goodList_reconnectKeep id s h
        · exact goodList_createInstance now id inst.name inst.webhookUrl _
            (goodList_setA_disc h rfl (fun hc => Status.noConfusion hc))
    · split
      · exact goodList_reconnectKeep id s h
      · split
        · exact goodList_setA_disc h rfl (fun hc => Status.noConfusion hc)
        · exact h

theorem goodList_handleCreated (now : Nat) (id : String) (u : ConnUpdate)
    (inst0 : Srv.Instance) (s : MState) (h : GoodList s.instances)
    (hl : lookupA s.instances id = some inst0) :
    GoodList (handleCreatedUpdate now id u inst0 s).instances := by
  have hmem := lookupA_mem _ _ _ hl
  have hgood0 : GoodInst inst0 := h.2.2 _ hmem
  have hnd0 : ∀ e ∈ s.instances, e.1 ≠ id → NoDouble inst0 e.2 :=
    pairwise_noDouble_lookup h.2.1 hmem
  have h1 : GoodList (setA s.instances id { inst0 with hadNewLogin := true }) :=
    goodList_setA h hgood0 (fun e he hne => noDouble_congr_left rfl rfl (hnd0 e he hne))
  obtain ⟨nl, qr, conn⟩ := u
  cases nl with
  | false =>
    cases qr with
    | none =>
      cases conn with
      | none => exact h
      | some cs =>
        cases cs with
        | connClose code dev => exact goodList_createdClose now id code dev _ _ h
        | connOpen uid => exact goodList_openUpdate id (resolvePhone uid) true _ _ h
    | some q =>
      have h2 : GoodList (setA s.instances id { inst0 with
          status := .qr_pending, qrCode := some (toDataURL q) }) :=
        goodList_setA_pending h rfl
      cases conn with
      | none => exact h2
      | some cs =>
        cases cs with
        | connClose code dev => exact goodList_createdClose now id code dev _ _ h2
        | connOpen uid => exact goodList_openUpdate id (resolvePhone uid) true _ _ h2
  | true =>
    cases qr with
    | none =>
      cases conn with
      | none => exact h1
      | some cs =>
        cases cs with
        | connClose code dev => exact goodList_createdClose now id code dev _ _ h1
        | connOpen uid => exact goodList_openUpdate id (resolvePhone uid) true _ _ h1
    | some q =>
      have h2 : GoodList (setA (setA s.instances id { inst0 with hadNewLogin := true }) id
          { { inst0 with hadNewLogin := true } with
            status := .qr_pending, qrCode := some (toDataURL q) }) :=
        goodList_setA_pending h1 rfl
      cases conn with
      | none => exact h2
      | some cs =>
        cases cs with
        | connClose code dev => exact goodList_createdClose now id code dev _ _ h2
        | connOpen uid => exact goodList_openUpdate id (resolvePhone uid) true _ _ h2

theorem goodList_handleReconnect (id : String) (u : ConnUpdate)
    (inst0 : Srv.Instance) (s : MState) (h : GoodList s.instances) :
    GoodList (handleReconnectUpdate id u inst0 s).instances := by
  obtain ⟨nl, qr, conn⟩ := u
  have closeCase : ∀ (code : Option Nat) (dev : Bool) (s1 : MState) (i1 : Srv.Instance),
      GoodList s1.instances →
      GoodList (if code = some 401 ∨ dev then
          { notifyWebSocket id (.statusEv .disconnected none (some "device_removed"))
            { s1 with
              instances := setA s1.instances id { i1 with
                status := .disconnected, qrCode := none, phone := none,
                hadNewLogin := false },
              reconnecting := s1.reconnecting.filter (fun x => x != id) } with
            creds := delA (notifyWebSocket id
              (.statusEv .disconnected none (some "device_removed"))
              { s1 with
                instances := setA s1.instances id { i1 with
                  status := .disconnected, qrCode := none, phone := none,
                  hadNewLogin := false },
                reconnecting := s1.reconnecting.filter (fun x => x != id) }).creds id }
        else if code = some DisconnectReason.loggedOut then
          notifyWebSocket id (.statusEv .disconnected none none)
            { s1 with
              instances := setA s1.instances id { i1 with
                status := .disconnected, phone := none },
              reconnecting := s1.reconnecting.filter (fun x => x != id) }
        else s1).instances := by
    intro code dev s1 i1 h1
    split
    · exact goodList_setA_disc h1 rfl (fun hc => Status.noConfusion hc)
    · split
      · rename_i hno hyes
        exact absurd (Or.inl hyes) hno
      · exact h1
  cases qr with
  | none =>
    cases conn with
    | none => exact h
    | some cs =>
      cases cs with
      | connClose code dev => exact closeCase code dev s inst0 h
      | connOpen uid => exact goodList_openUpdate id (resolvePhone uid) false _ _ h
  | some q =>
    have h2 : GoodList (setA s.instances id { inst0 with
        status := .qr_pending, qrCode := some (toDataURL q) }) :=
      goodList_setA_pending h rfl
    cases conn with
    | none => exact h2
    | some cs =>
      cases cs with
      | connClose code dev => exact closeCase code dev _ _ h2
      | connOpen uid => exact goodList_openUpdate id (resolvePhone uid) false _ _ h2

theorem goodList_handleUpdate (now : Nat) (id : String) (u : ConnUpdate) (s : MState)
    (h : GoodList s.instances) : GoodList (handleUpdate now id u s).instances := by
  rw [handleUpdate]
  cases hl : lookupA s.instances id with
  | none => exact h
  | some inst0 =>
    show GoodList (match inst0.socket with
      | none => s
      | some HandlerKind.created => handleCreatedUpdate now id u inst0 s
      | some HandlerKind.reconnect => handleReconnectUpdate id u inst0 s).instances
    cases inst0.socket with
    | none => exact h
    | some hk =>
      cases hk with
      | created => exact goodList_handleCreated now id u inst0 s h hl
      | reconnect => exact goodList_handleReconnect id u inst0 s h

theorem goodList_runOp (s : MState) (op : Op) (h : GoodList s.instances) :
    GoodList (runOp s op).instances := by
  cases op with
  | createOp now id name w => exact goodList_createInstance now id name w s h
  | updateOp now id u => exact goodList_handleUpdate now id u s h
  | credsOp id c =>
    rw [runOp, credsUpdate]
    cases lookupA s.instances id with
    | none => exact h
    | some inst =>
      dsimp only
      split <;> exact h
  | reconnectOp now id =>
    rw [runOp, reconnectInstance]
    split
    · exact h
    · cases lookupA s.instances id with
      | none => exact h
      | some inst =>
        exact goodList_createInstance now id inst.name inst.webhookUrl _ (goodList_delA h)
  | reconnectKeepOp id => exact goodList_reconnectKeep id s h
  | deleteOp id =>
    rw [runOp, deleteInstance]
    cases lookupA s.instances id with
    | none => exact h
    | some inst => exact goodList_delA h
  | subscribeOp id ws =>
    rw [runOp, addWebSocketConnection]
    cases lookupA s.wsConnections id with
    | none => exact h
    | some l =>
      dsimp only
      split <;> exact h
  | unsubscribeOp id ws =>
    rw [runOp, removeWebSocketConnection]
    cases lookupA s.wsConnections id with
    | none => exact h
    | some l => exact h

theorem goodList_runOps (ops : List Op) : GoodList (runOps initState ops).instances := by
  have step : ∀ s, GoodList s.instances → GoodList (runOps s ops).instances := by
    induction ops with
    | nil => exact fun s h => h
    | cons op rest ih => exact fun s h => ih (runOp s op) (goodList_runOp s op h)
  refine step initState ⟨List.Pairwise.nil, List.Pairwise.nil, ?_⟩
  intro e he
  exact absurd he (List.not_mem_nil e)

theorem lookupA_delA_none {α : Type} {c : List (String × α)} {j : String} (k : String)
    (h : lookupA c j = none) : lookupA (delA c k) j = none := by
  by_cases hk : j = k
  · subst hk
    exact lookupA_delA_self c j
  · rw [lookupA_delA_ne c k j hk]
    exact h

theorem lookupA_foldl_delA_none {m : String × Srv.Instance → Bool} {j : String}
    (xs : List (String × Srv.Instance)) (c0 : List (String × CredInfo))
    (h : lookupA c0 j = none) :
    lookupA (xs.foldl (fun c e => if m e then delA c e.1 else c) c0) j = none := by
  induction xs generalizing c0 with
  | nil => exact h
  | cons e rest ih =>
    rw [List.foldl_cons]
    refine ih _ ?_
    by_cases hm : m e
    · rw [if_pos hm]
      exact lookupA_delA_none _ h
    · rw [if_neg hm]
      exact h

theorem lookupA_foldl_delA_match {m : String × Srv.Instance → Bool} {j : String}
    (xs : List (String × Srv.Instance)) (c0 : List (String × CredInfo))
    (h : ∃ e, e ∈ xs ∧ m e = true ∧ e.1 = j) :
    lookupA (xs.foldl (fun c e => if m e then delA c e.1 else c) c0) j = none := by
  induction xs generalizing c0 with
  | nil =>
    obtain ⟨e, he, _, _⟩ := h
    exact absurd he (List.not_mem_nil e)
  | cons e0 rest ih =>
    rw [List.foldl_cons]
    obtain ⟨e, he, hme, hej⟩ := h
    rcases List.mem_cons.mp he with rfl | hrest
    · refine lookupA_foldl_delA_none rest _ ?_
      rw [if_pos hme, hej]
      exact lookupA_delA_self c0 j
    · exact ih _ ⟨e, hrest, hme, hej⟩

theorem handleUpdate_open_created {now : Nat} {id : String} {uid : Option String}
    {s : MState} {inst : Srv.Instance} (hl : lookupA s.instances id = some inst)
    (hs : inst.socket = some .created) :
    handleUpdate now id (openUpd uid) s = openUpdate id (resolvePhone uid) true inst s := by
  simp [handleUpdate, hl, hs, handleCreatedUpdate, openUpd]

theorem handleUpdate_open_reconnect {now : Nat} {id : String} {uid : Option String}
    {s : MState} {inst : Srv.Instance} (hl : lookupA s.instances id = some inst)
    (hs : inst.socket = some .reconnect) :
    handleUpdate now id (openUpd uid) s = openUpdate id (resolvePhone uid) false inst s := by
  simp [handleUpdate, hl, hs, handleReconnectUpdate, openUpd]

/-- What a successful open with resolved phone p does to a previous
holder j of the same phone: j is forced to disconnected with phone,
qrCode and socket cleared, j's credentials are deleted, the opening
instance ends connected with phone p, and j's disconnected notification
is emitted before the connected notification of the opener. -/
theorem openUpdate_forces (id j p : String) (clear : Bool)
    (inst instj : Srv.Instance) (s : MState)
    (hne : j ≠ id)
    (hj : lookupA s.instances j = some instj)
    (hjc : instj.status = .connected) (hjp : instj.phone = some p) :
    lookupA (openUpdate id (some p) clear inst s).instances j = some (discClear instj) ∧
    lookupA (openUpdate id (some p) clear inst s).creds j = none ∧
    statusAt (openUpdate id (some p) clear inst s) id = some .connected ∧
    (lookupA (openUpdate id (some p) clear inst s).instances id).map Srv.Instance.phone =
      some (some p) ∧
    ∃ mid, (openUpdate id (some p) clear inst s).events =
        s.events ++ mid ++ [⟨id, .statusEv .connected (some p) none⟩] ∧
      ⟨j, .statusEv .disconnected none none⟩ ∈ mid := by
  have hm : discMatch p id (j, instj) = true := discMatch_iff.mpr ⟨hne, hjp, hjc⟩
  have hmemj : (j, instj) ∈ s.instances := lookupA_mem _ _ _ hj
  refine ⟨?_, ?_, ?_, ?_, ?_⟩
  · show lookupA (setA ((disconnectOtherInstancesWithPhone p id s).instances) id _) j =
      some (discClear instj)
    rw [lookupA_setA_ne _ _ _ _ hne, discOther_instances,
      lookupA_map _ (discF p id) (discF_fst p id) j, hj]
    show some (discF p id (j, instj)).2 = some (discClear instj)
    rw [discF, if_pos hm]
  · show lookupA (s.instances.foldl
      (fun c e => if discMatch p id e then delA c e.1 else c) s.creds) j = none
    exact lookupA_foldl_delA_match s.instances s.creds ⟨(j, instj), hmemj, hm, rfl⟩
  · show (lookupA (setA ((disconnectOtherInstancesWithPhone p id s).instances) id _) id).map
      Srv.Instance.status = some .connected
    rw [lookupA_setA_self]
    rfl
  · show (lookupA (setA ((disconnectOtherInstancesWithPhone p id s).instances) id _) id).map
      Srv.Instance.phone = some (some p)
    rw [lookupA_setA_self]
    rfl
  · refine ⟨(s.instances.filter (discMatch p id)).map
      (fun e => ⟨e.1, EventPayload.statusEv .disconnected none none⟩), ?_, ?_⟩
    · show (s.events ++ (s.instances.filter (discMatch p id)).map
          (fun e => ⟨e.1, EventPayload.statusEv .disconnected none none⟩)) ++
          [⟨id, .statusEv .connected (some p) none⟩] = _
      rw [List.append_assoc]
    · exact List.mem_map.mpr ⟨(j, instj), List.mem_filter.mpr ⟨hmemj, hm⟩, rfl⟩

/-- Claim C1: in every reachable manager state no two distinct instances
are simultaneously connected with the same resolved phone; and whenever
a connection opens resolving phone p while another instance j still
holds (connected, p), the open handler forces j to disconnected with its
phone and qrCode cleared, deletes j's persisted credentials, emits j's
disconnected event before the opener's connected event, and only then
reports the opening instance connected with p. -/
theorem C1_one_connected_instance_per_phone :
    (∀ ops : List Op, AtMostOnePerPhone (runOps initState ops)) ∧
    (∀ (now : Nat) (id j : String) (uid : Option String) (p : String)
        (instj insti : Srv.Instance) (hk : HandlerKind) (s : MState),
      j ≠ id →
      lookupA s.instances j = some instj → instj.status = .connected →
      instj.phone = some p →
      lookupA s.instances id = some insti → insti.socket = some hk →
      resolvePhone uid = some p →
      lookupA (runOp s (.updateOp now id (openUpd uid))).instances j =
        some (discClear instj) ∧
      (discClear instj).status = .disconnected ∧ (discClear instj).phone = none ∧
      (discClear instj).qrCode = none ∧
      lookupA (runOp s (.updateOp now id (openUpd uid))).creds j = none ∧
      statusAt (runOp s (.updateOp now id (openUpd uid))) id = some .connected ∧
      ∃ mid, (runOp s (.updateOp now id (openUpd uid))).events =
          s.events ++ mid ++ [⟨id, .statusEv .connected (some p) none⟩] ∧
        ⟨j, .statusEv .disconnected none none⟩ ∈ mid) := by
  constructor
  · intro ops
    exact (goodList_runOps ops).2.1
  · intro now id j uid p instj insti hk s hne hj hjc hjp hid hsock hres
    have hred : runOp s (.updateOp now id (openUpd uid)) =
        openUpdate id (some p) (hk == HandlerKind.created) insti s := by
      cases hk with
      | created =>
        rw [runOp, handleUpdate_open_created hid hsock, hres]
        rfl
      | reconnect =>
        rw [runOp, handleUpdate_open_reconnect hid hsock, hres]
        rfl
    rw [hred]
    have hforce := openUpdate_forces id j p (hk == HandlerKind.created) insti instj s
      hne hj hjc hjp
    exact ⟨hforce.1, rfl, rfl, rfl, hforce.2.1, hforce.2.2.1, hforce.2.2.2.2⟩

/-- The previous holder of the phone in the C1 witness scenario. -/
def c1Holder : Srv.Instance := { liveInst with status := .connected, phone := some "551199" }

/-- Witness state: instance b connected with the phone, instance a live
and about to open with the same phone. -/
def c1State : MState :=
  { initState with
    instances := [("b", c1Holder), ("a", liveInst)],
    creds := [("b", ⟨2500, true, true, true, true⟩)] }

/-- Witness for C1 at a concrete two-instance state. -/
theorem C1_one_connected_instance_per_phone_witness :
    AtMostOnePerPhone (runOps initState []) ∧
    (lookupA (runOp c1State (.updateOp 1 "a" (openUpd (some "551199")))).instances "b" =
        some (discClear c1Holder) ∧
      (discClear c1Holder).status = .disconnected ∧ (discClear c1Holder).phone = none ∧
      (discClear c1Holder).qrCode = none ∧
      lookupA (runOp c1State (.updateOp 1 "a" (openUpd (some "551199")))).creds "b" = none ∧
      statusAt (runOp c1State (.updateOp 1 "a" (openUpd (some "551199")))) "a" =
        some .connected ∧
      ∃ mid, (runOp c1State (.updateOp 1 "a" (openUpd (some "551199")))).events =
          c1State.events ++ mid ++ [⟨"a", .statusEv .connected (some "551199") none⟩] ∧
        ⟨"b", .statusEv .disconnected none none⟩ ∈ mid) :=
  ⟨C1_one_connected_instance_per_phone.1 [],
   C1_one_connected_instance_per_phone.2 1 "a" "b" (some "551199") "551199" c1Holder
     liveInst .created c1State (by decide) rfl rfl rfl rfl rfl (by decide)⟩

/-- The instance id has a live socket (with some handler attached). -/
def AliveSock (s : MState) (id : String) : Prop :=
  ∃ inst hk, lookupA s.instances id = some inst ∧ inst.socket = some hk

theorem aliveSock_createInstance (now : Nat) (id name : String) (w : Option String)
    (s : MState) : AliveSock (createInstance now id name w s) id := by
  exact ⟨_, .created, lookupA_setA_self _ _ _, rfl⟩

theorem aliveSock_reconnectKeep (id : String) (s : MState) (h : AliveSock s id) :
    AliveSock (reconnectWithoutDeletingSession id s) id := by
  rw [reconnectWithoutDeletingSession]
  split
  · exact h
  · obtain ⟨inst, hk, hl, _⟩ := h
    rw [hl]
    exact ⟨_, .reconnect, lookupA_setA_self _ _ _, rfl⟩

theorem aliveSock_openUpdate (id : String) (phoneR : Option String) (clear : Bool)
    (instX : Srv.Instance) (sX : MState) {hk : HandlerKind}
    (hsock : instX.socket = some hk) :
    AliveSock (openUpdate id phoneR clear instX sX) id := by
  cases phoneR with
  | none => exact ⟨_, hk, lookupA_setA_self _ _ _, hsock⟩
  | some p => exact ⟨_, hk, lookupA_setA_self _ _ _, hsock⟩

theorem aliveSock_createdClose (now : Nat) (id : String) (code : Option Nat) (dev : Bool)
    (instX : Srv.Instance) (sX : MState) {hk : HandlerKind}
    (hX : AliveSock sX id) (hsock : instX.socket = some hk) :
    AliveSock (createdClose now id code dev instX sX) id := by
  simp only [createdClose]
  split
  · exact ⟨_, hk, lookupA_setA_self _ _ _, hsock⟩
  · split
    · split
      · exact aliveSock_createInstance now id instX.name instX.webhookUrl _
      · split
        · exact aliveSock_reconnectKeep id sX hX
        · exact aliveSock_createInstance now id instX.name instX.webhookUrl _
    · split
      · exact aliveSock_reconnectKeep id sX hX
      · split
        · exact ⟨_, hk, lookupA_setA_self _ _ _, hsock⟩
        · exact hX

theorem aliveSock_handleUpdate (now : Nat) (id : String) (u : ConnUpdate) (s : MState)
    (h : AliveSock s id) : AliveSock (handleUpdate now id u s) id := by
  obtain ⟨inst0, hk0, hl, hsock⟩ := h
  rw [handleUpdate, hl]
  show AliveSock (match inst0.socket with
    | none => s
    | some HandlerKind.created => handleCreatedUpdate now id u inst0 s
    | some HandlerKind.reconnect => handleReconnectUpdate id u inst0 s) id
  rw [hsock]
  have halive : AliveSock s id := ⟨inst0, hk0, hl, hsock⟩
  cases hk0 with
  | created =>
    show AliveSock (handleCreatedUpdate now id u inst0 s) id
    obtain ⟨nl, qr, conn⟩ := u
    cases nl with
    | false =>
      cases qr with
      | none =>
        cases conn with
        | none => exact halive
        | some cs =>
          cases cs with
          | connClose code dev => exact aliveSock_createdClose now id code dev _ _ halive hsock
          | connOpen uid => exact aliveSock_openUpdate id (resolvePhone uid) true _ _ hsock
      | some q =>
        cases conn with
        | none => exact ⟨_, .created, lookupA_setA_self _ _ _, hsock⟩
        | some cs =>
          cases cs with
          | connClose code dev =>
            exact aliveSock_createdClose now id code dev _ _
              ⟨_, .created, lookupA_setA_self _ _ _, hsock⟩ hsock
          | connOpen uid => exact aliveSock_openUpdate id (resolvePhone uid) true _ _ hsock
    | true =>
      cases qr with
      | none =>
        cases conn with
        | none => exact ⟨_, .created, lookupA_setA_self _ _ _, hsock⟩
        | some cs =>
          cases cs with
          | connClose code dev =>
            exact aliveSock_createdClose now id code dev _ _
              ⟨_, .created, lookupA_setA_self _ _ _, hsock⟩ hsock
          | connOpen uid => exact aliveSock_openUpdate id (resolvePhone uid) true _ _ hsock
      | some q =>
        cases conn with
        | none => exact ⟨_, .created, lookupA_setA_self _ _ _, hsock⟩
        | some cs =>
          cases cs with
          | connClose code dev =>
            exact aliveSock_createdClose now id code dev _ _
              ⟨_, .created, lookupA_setA_self _ _ _, hsock⟩ hsock
          | connOpen uid => exact aliveSock_openUpdate id (resolvePhone uid) true _ _ hsock
  | reconnect =>
    show AliveSock (handleReconnectUpdate id u inst0 s) id
    obtain ⟨nl, qr, conn⟩ := u
    have closeCase : ∀ (code : Option Nat) (dev : Bool) (s1 : MState) (i1 : Srv.Instance),
        AliveSock s1 id → i1.socket = some HandlerKind.reconnect →
        AliveSock (handleReconnectUpdate id ⟨nl, none, some (.connClose code dev)⟩ i1 s1) id := by
      intro code dev s1 i1 h1 hs1
      simp only [handleReconnectUpdate]
      split
      · exact ⟨_, .reconnect, lookupA_setA_self _ _ _, hs1⟩
      · split
        · exact ⟨_, .reconnect, lookupA_setA_self _ _ _, hs1⟩
        · exact h1
    cases qr with
    | none =>
      cases conn with
      | none => exact halive
      | some cs =>
        cases cs with
        | connClose code dev => exact closeCase code dev s inst0 halive hsock
        | connOpen uid => exact aliveSock_openUpdate id (resolvePhone uid) false _ _ hsock
    | some q =>
      cases conn with
      | none => exact ⟨_, .reconnect, lookupA_setA_self _ _ _, hsock⟩
      | some cs =>
        cases cs with
        | connClose code dev =>
          exact closeCase code dev _ _ ⟨_, .reconnect, lookupA_setA_self _ _ _, hsock⟩ hsock
        | connOpen uid => exact aliveSock_openUpdate id (resolvePhone uid) false _ _ hsock

theorem handleUpdate_red (now : Nat) (id : String) (u : ConnUpdate) (s : MState)
    (inst0 : Srv.Instance) (hk : HandlerKind) (hl : lookupA s.instances id = some inst0)
    (hs : inst0.socket = some hk) :
    handleUpdate now id u s = (match hk with
      | HandlerKind.created => handleCreatedUpdate now id u inst0 s
      | HandlerKind.reconnect => handleReconnectUpdate id u inst0 s) := by
  cases hk with
  | created => simp [handleUpdate, hl, hs]
  | reconnect => simp [handleUpdate, hl, hs]

theorem statusAt_createInstance (now : Nat) (id name : String) (w : Option String)
    (s : MState) : statusAt (createInstance now id name w s) id = some .connecting := by
  rw [statusAt, createInstance_lookup_self]
  rfl

theorem reconnectKeep_not_connected (id : String) (sX : MState)
    (h : statusAt (reconnectWithoutDeletingSession id sX) id = some .connected) :
    statusAt sX id = some .connected := by
  rw [reconnectWithoutDeletingSession] at h
  split at h
  · exact h
  · split at h
    · exact h
    · exfalso
      simp [statusAt, lookupA_setA_self] at h

theorem createdClose_not_connected (now : Nat) (id : String) (code : Option Nat)
    (dev : Bool) (instX : Srv.Instance) (sX : MState)
    (h : statusAt (createdClose now id code dev instX sX) id = some .connected) :
    statusAt sX id = some .connected := by
  simp only [createdClose] at h
  split at h
  · exfalso
    simp [statusAt, notifyWebSocket, lookupA_setA_self] at h
  · split at h
    · split at h
      · rw [statusAt_createInstance] at h
        simp at h
      · split at h
        · exact reconnectKeep_not_connected id sX h
        · rw [statusAt_createInstance] at h
          simp at h
    · split at h
      · exact reconnectKeep_not_connected id sX h
      · split at h
        · exfalso
          simp [statusAt, notifyWebSocket, lookupA_setA_self] at h
        · exact h

theorem reconnectClose_not_connected (id : String) (nl : Bool) (code : Option Nat)
    (dev : Bool) (instX : Srv.Instance) (sX : MState)
    (h : statusAt (handleReconnectUpdate id ⟨nl, none, some (.connClose code dev)⟩ instX sX)
      id = some .connected) :
    statusAt sX id = some .connected := by
  simp only [handleReconnectUpdate] at h
  split at h
  · exfalso
    simp [statusAt, notifyWebSocket, lookupA_setA_self] at h
  · split at h
    · exfalso
      simp [statusAt, notifyWebSocket, lookupA_setA_self] at h
    · exact h

/-- An instance only becomes connected through an open report. -/
theorem connected_step (now : Nat) (id : String) (u : ConnUpdate) (s : MState)
    (hafter : statusAt (handleUpdate now id u s) id = some .connected) :
    statusAt s id = some .connected ∨ ∃ uid, u.connection = some (.connOpen uid) := by
  obtain ⟨nl, qr, conn⟩ := u
  cases hl : lookupA s.instances id with
  | none =>
    left
    rw [handleUpdate_none hl] at hafter
    exact hafter
  | some inst0 =>
    cases hs : inst0.socket with
    | none =>
      left
      rw [handleUpdate_noSocket hl hs] at hafter
      exact hafter
    | some hk =>
      rw [handleUpdate_red now id _ s inst0 hk hl hs] at hafter
      cases conn with
      | some cs =>
        cases cs with
        | connOpen uid => exact Or.inr ⟨uid, rfl⟩
        | connClose code dev =>
          left
          cases hk with
          | created =>
            cases nl with
            | false =>
              cases qr with
              | none => exact createdClose_not_connected now id code dev _ _ hafter
              | some q =>
                have h2 := createdClose_not_connected now id code dev _ _ hafter
                exfalso
                simp [statusAt, notifyWebSocket, lookupA_setA_self] at h2
            | true =>
              cases qr with
              | none =>
                have h2 := createdClose_not_connected now id code dev _ _ hafter
                simp [statusAt, notifyWebSocket, lookupA_setA_self] at h2
                rw [statusAt, hl]
                simpa using h2
              | some q =>
                have h2 := createdClose_not_connected now id code dev _ _ hafter
                exfalso
                simp [statusAt, notifyWebSocket, lookupA_setA_self] at h2
          | reconnect =>
            cases qr with
            | none => exact reconnectClose_not_connected id nl code dev _ _ hafter
            | some q =>
              have h2 := reconnectClose_not_connected id nl code dev _ _ hafter
              exfalso
              simp [statusAt, notifyWebSocket, lookupA_setA_self] at h2
      | none =>
        left
        cases hk with
        | created =>
          cases nl with
          | false =>
            cases qr with
            | none => exact hafter
            | some q =>
              exfalso
              simp [handleCreatedUpdate, statusAt, notifyWebSocket, lookupA_setA_self] at hafter
          | true =>
            cases qr with
            | none =>
              simp [handleCreatedUpdate, statusAt, notifyWebSocket, lookupA_setA_self] at hafter
              rw [statusAt, hl]
              simpa using hafter
            | some q =>
              exfalso
              simp [handleCreatedUpdate, statusAt, notifyWebSocket, lookupA_setA_self] at hafter
        | reconnect =>
          cases qr with
          | none => exact hafter
          | some q =>
            exfalso
            simp [handleReconnectUpdate, statusAt, notifyWebSocket, lookupA_setA_self] at hafter

/-- A QR-only update on a live socket stores the rendered QR payload. -/
theorem qr_only_step (now : Nat) (id : String) (q : String) (nl : Bool) (s : MState)
    (h : AliveSock s id) :
    qrCodeAt (handleUpdate now id ⟨nl, some q, none⟩ s) id = some (some (toDataURL q)) := by
  obtain ⟨inst0, hk0, hl, hsock⟩ := h
  rw [handleUpdate_red now id _ s inst0 hk0 hl hsock]
  cases hk0 with
  | created =>
    cases nl with
    | false => simp [handleCreatedUpdate, qrCodeAt, notifyWebSocket, lookupA_setA_self]
    | true => simp [handleCreatedUpdate, qrCodeAt, notifyWebSocket, lookupA_setA_self]
  | reconnect => simp [handleReconnectUpdate, qrCodeAt, notifyWebSocket, lookupA_setA_self]

/-- The trace consists only of protocol-engine updates for instance id. -/
def updatesOnly (id : String) (ops : List Op) : Prop :=
  ∀ op ∈ ops, ∃ now u, op = Op.updateOp now id u

/-- Engine boundary assumption for a freshly unpaired session: every open
report is preceded in the trace by a standalone QR report (pairing is the
QR-scan handshake that establishes new credentials, so an unauthenticated
session shows a QR before it can open). -/
def opensAfterQrOnly (id : String) (ops : List Op) : Prop :=
  ∀ (i : Nat) (now : Nat) (u : ConnUpdate) (uid : Option String),
    ops[i]? = some (Op.updateOp now id u) →
    u.connection = some (.connOpen uid) →
    ∃ (j : Nat) (now2 : Nat) (u2 : ConnUpdate) (q : String),
      j < i ∧ ops[j]? = some (Op.updateOp now2 id u2) ∧
      u2.qr = some q ∧ u2.connection = none

theorem runOps_cons (s : MState) (op : Op) (rest : List Op) :
    runOps s (op :: rest) = runOps (runOp s op) rest := rfl

theorem connected_has_open (id : String) (ops : List Op) :
    ∀ s, updatesOnly id ops → statusAt s id ≠ some .connected →
    statusAt (runOps s ops) id = some .connected →
    ∃ (i : Nat) (now : Nat) (u : ConnUpdate) (uid : Option String),
      ops[i]? = some (Op.updateOp now id u) ∧ u.connection = some (.connOpen uid) := by
  induction ops with
  | nil =>
    intro s _ hne hafter
    exact absurd hafter hne
  | cons op rest ih =>
    intro s hupd hne hafter
    obtain ⟨now, u, rfl⟩ := hupd op (List.mem_cons_self _ _)
    rw [runOps_cons] at hafter
    by_cases hmid : statusAt (runOp s (.updateOp now id u)) id = some .connected
    · rcases connected_step now id u s hmid with hleft | ⟨uid, hconn⟩
      · exact absurd hleft hne
      · exact ⟨0, now, u, uid, by simp, hconn⟩
    · obtain ⟨i, now2, u2, uid2, hget, hconn⟩ :=
        ih (runOp s (.updateOp now id u))
          (fun op2 h2 => hupd op2 (List.mem_cons_of_mem _ h2)) hmid hafter
      exact ⟨i + 1, now2, u2, uid2, by simpa using hget, hconn⟩

theorem alive_runOps (id : String) (ops : List Op) :
    ∀ s, updatesOnly id ops → AliveSock s id → AliveSock (runOps s ops) id := by
  induction ops with
  | nil => exact fun s _ h => h
  | cons op rest ih =>
    intro s hupd h
    obtain ⟨now, u, rfl⟩ := hupd op (List.mem_cons_self _ _)
    rw [runOps_cons]
    exact ih _ (fun op2 h2 => hupd op2 (List.mem_cons_of_mem _ h2))
      (aliveSock_handleUpdate now id u s h)

theorem runOps_take_succ (s : MState) (ops : List Op) (j : Nat) (op : Op)
    (h : ops[j]? = some op) :
    runOps s (ops.take (j + 1)) = runOp (runOps s (ops.take j)) op := by
  rw [runOps, List.take_succ, h]
  rw [List.foldl_append]
  rfl

theorem toDataURL_ne_empty (q : String) : toDataURL q ≠ "" := by
  intro h
  have h0 : (toDataURL q).length = 0 := by rw [h]; rfl
  rw [toDataURL, String.length_append] at h0
  have h22 : ("data:image/png;base64,").length = 22 := rfl
  omega

/-- Claim C4: a manual reconnectInstance on an existing instance whose
reconnect lock is free deletes the persisted credentials, removes and
recreates the in-memory instance through createInstance (fresh record:
status connecting, no qrCode, no phone, createdAt now, fresh socket with
the created-handler), and releases the lock; from that state, along any
engine trace in which opens follow a standalone QR report (the pairing
handshake), the instance can only reach connected after a non-empty
rendered QR has been stored and exposed — a manual reconnect never
silently resumes the previous session. -/
theorem C4_manual_reconnect_forces_fresh_qr
    (now : Nat) (id : String) (s : MState) (inst : Srv.Instance)
    (hlock : s.reconnecting.contains id = false)
    (hl : lookupA s.instances id = some inst) :
    lookupA (reconnectInstance now id s).creds id = none ∧
    lookupA (reconnectInstance now id s).instances id =
      some { name := inst.name, webhookUrl := inst.webhookUrl, status := .connecting,
             qrCode := none, phone := none, hadNewLogin := false,
             socket := some .created, createdAt := now } ∧
    id ∉ (reconnectInstance now id s).reconnecting ∧
    (∀ ops : List Op, updatesOnly id ops → opensAfterQrOnly id ops →
      statusAt (runOps (reconnectInstance now id s) ops) id = some .connected →
      ∃ k, k ≤ ops.length ∧ ∃ d,
        qrCodeAt (runOps (reconnectInstance now id s) (ops.take k)) id = some (some d) ∧
        d ≠ "") := by
  have hred : reconnectInstance now id s =
      { createInstance now id inst.name inst.webhookUrl
          { s with reconnecting := s.reconnecting ++ [id],
                   instances := delA s.instances id, creds := delA s.creds id } with
        reconnecting := (s.reconnecting ++ [id]).filter (fun x => x != id) } := by
    rw [reconnectInstance]
    rw [if_neg (by rw [hlock]; exact Bool.false_ne_true), hl]
    rfl
  have hcreds : lookupA (reconnectInstance now id s).creds id = none := by
    rw [hred]
    show lookupA (delA s.creds id) id = none
    exact lookupA_delA_self _ _
  have hinst : lookupA (reconnectInstance now id s).instances id =
      some { name := inst.name, webhookUrl := inst.webhookUrl, status := .connecting,
             qrCode := none, phone := none, hadNewLogin := false,
             socket := some .created, createdAt := now } := by
    rw [hred]
    exact createInstance_lookup_self now id inst.name inst.webhookUrl _
  refine ⟨hcreds, hinst, ?_, ?_⟩
  · rw [hred]
    intro hmem
    have := (List.mem_filter.mp hmem).2
    simp at this
  · intro ops hupd hoaq hconn
    have hne : statusAt (reconnectInstance now id s) id ≠ some .connected := by
      rw [statusAt, hinst]
      intro hcontra
      injection hcontra with hcontra
      exact Status.noConfusion hcontra
    obtain ⟨i, nowi, ui, uidi, hgeti, hconni⟩ :=
      connected_has_open id ops (reconnectInstance now id s) hupd hne hconn
    obtain ⟨j, nowj, uj, qj, hji, hgetj, hqj, hconnj⟩ :=
      hoaq i nowi ui uidi hgeti hconni
    have hilen : i < ops.length := by
      by_contra hge
      rw [List.getElem?_eq_none (by omega)] at hgeti
      exact Option.noConfusion hgeti
    refine ⟨j + 1, by omega, toDataURL qj, ?_, toDataURL_ne_empty qj⟩
    have halive : AliveSock (runOps (reconnectInstance now id s) (ops.take j)) id := by
      refine alive_runOps id (ops.take j) _ ?_ ?_
      · intro op2 h2
        exact hupd op2 (List.mem_of_mem_take h2)
      · refine ⟨_, .created, hinst, rfl⟩
    rw [runOps_take_succ _ ops j _ hgetj]
    obtain ⟨nlj, qrj, connj⟩ := uj
    simp only at hqj hconnj
    subst hqj hconnj
    exact qr_only_step nowj id qj nlj _ halive

/-- Manager state for the C4 witness: instance a live with credentials. -/
def c4State : MState :=
  { initState with
    instances := [("a", liveInst)],
    creds := [("a", ⟨2500, true, true, true, true⟩)] }

/-- Engine trace for the C4 witness: one standalone QR report, then the
open report. -/
def c4Ops : List Op :=
  [.updateOp 2 "a" ⟨false, some "Q", none⟩, .updateOp 3 "a" (openUpd (some "5511"))]

theorem c4Ops_updatesOnly : updatesOnly "a" c4Ops := by
  intro op hop
  rw [c4Ops] at hop
  rcases List.mem_cons.mp hop with rfl | hop2
  · exact ⟨2, _, rfl⟩
  · rcases List.mem_cons.mp hop2 with rfl | hop3
    · exact ⟨3, _, rfl⟩
    · exact absurd hop3 (List.not_mem_nil _)

theorem c4Ops_opensAfterQr : opensAfterQrOnly "a" c4Ops := by
  intro i now u uid hget hconn
  rcases i with _ | _ | i
  · rw [show c4Ops[0]? = some (Op.updateOp 2 "a" ⟨false, some "Q", none⟩) by
      simp [c4Ops]] at hget
    injection hget with hget
    injection hget with hnow hid hu
    subst hu
    exact Option.noConfusion hconn
  · refine ⟨0, 2, ⟨false, some "Q", none⟩, "Q", by omega, by simp [c4Ops], rfl, rfl⟩
  · rw [show c4Ops[i + 1 + 1]? = none by simp [c4Ops]] at hget
    exact Option.noConfusion hget

/-- Witness for C4 at a concrete state, with the behavioral part also
instantiated on the concrete pairing trace c4Ops. -/
theorem C4_manual_reconnect_forces_fresh_qr_witness :
    (lookupA (reconnectInstance 1 "a" c4State).creds "a" = none ∧
     lookupA (reconnectInstance 1 "a" c4State).instances "a" =
       some { name := "A", webhookUrl := none, status := .connecting, qrCode := none,
              phone := none, hadNewLogin := false, socket := some .created,
              createdAt := 1 } ∧
     "a" ∉ (reconnectInstance 1 "a" c4State).reconnecting ∧
     (∀ ops : List Op, updatesOnly "a" ops → opensAfterQrOnly "a" ops →
       statusAt (runOps (reconnectInstance 1 "a" c4State) ops) "a" = some .connected →
       ∃ k, k ≤ ops.length ∧ ∃ d,
         qrCodeAt (runOps (reconnectInstance 1 "a" c4State) (ops.take k)) "a" =
           some (some d) ∧ d ≠ "")) ∧
    (∃ k, k ≤ c4Ops.length ∧ ∃ d,
      qrCodeAt (runOps (reconnectInstance 1 "a" c4State) (c4Ops.take k)) "a" =
        some (some d) ∧ d ≠ "") := by
  have h := C4_manual_reconnect_forces_fresh_qr 1 "a" c4State liveInst rfl rfl
  exact ⟨h, h.2.2.2 c4Ops c4Ops_updatesOnly c4Ops_opensAfterQr (by decide)⟩

/-- An operation trace that connects instance a, loses the transport with
a 428 close (which triggers a credential-preserving reconnect), and then
receives a QR on the reconnect socket. -/
def c3Trace : List Op :=
  [.createOp 0 "a" "A" none,
   .updateOp 1 "a" ⟨false, none, some (.connOpen (some "551199"))⟩,
   .updateOp 2 "a" (closeUpd (some 428) false),
   .updateOp 3 "a" ⟨false, some "RAWQR", none⟩]

/-- Claim C3 counterexample: after the c3Trace run, instance a holds a
non-null qrPayload and a non-null phone simultaneously, because
reconnectWithoutDeletingSession clears qrCode but not phone, and the QR
received during the reconnect does not clear it either. -/
theorem C3_counterexample_qr_and_phone_both_present :
    (lookupA (runOps initState c3Trace).instances "a").map
        (fun i => (i.qrCode, i.phone, i.status)) =
      some (some "data:image/png;base64,RAWQR", some "551199", .qr_pending) := by
  rfl

/-- Claim C3 amended: in every reachable state a present qrPayload implies
status qr_pending (the stale phone may survive next to it during a
credential-preserving reconnect); in particular qrPayload is never
present while status = connected. -/
theorem C3_amended_qr_only_while_pending (ops : List Op) :
    ∀ e ∈ (runOps initState ops).instances,
      (e.2.qrCode ≠ none → e.2.status = .qr_pending) ∧
      (e.2.status = .connected → e.2.qrCode = none) := by
  intro e he
  have h := (goodList_runOps ops).2.2 e he
  refine ⟨h, ?_⟩
  intro hc
  by_contra hq
  have h2 := h hq
  rw [hc] at h2
  exact Status.noConfusion h2

/-- The instance entry reached by creating a and receiving one QR. -/
def c3Entry : Srv.Instance :=
  { liveInst with status := .qr_pending, qrCode := some "data:image/png;base64,RAWQR" }

/-- Witness for C3 amended, on a short trace that leaves a QR pending. -/
theorem C3_amended_qr_only_while_pending_witness :
    (c3Entry.qrCode ≠ none → c3Entry.status = .qr_pending) ∧
    (c3Entry.status = .connected → c3Entry.qrCode = none) :=
  C3_amended_qr_only_while_pending
    [.createOp 0 "a" "A" none, .updateOp 1 "a" ⟨false, some "RAWQR", none⟩]
    ("a", c3Entry) (by decide)

end Claims
